import Mathlib

/-!
Verification of the NCNN BYOC bridge for TVM.

This file gives a shallow embedding of the two source files

  * src/relay/backend/contrib/ncnn/codegen.cc   (composite pattern extraction
    and JSON graph serialization), and
  * src/runtime/contrib/ncnn/ncnn_runtime.cc    (runtime engine builder,
    tensor layout bridge, execution driver),

and proves the testable properties stated in the specification.  Pure
computations of the C++ are translated into Lean functions; the imperative
copy loops are translated into folds of point updates over explicit state;
fatal paths (LOG(FATAL) / ICHECK failures / thrown exceptions / undefined
behaviour on malformed input) are translated as `Option` failure (`none`).
Tensor payloads are 32-bit floats in the source; since the bridge only moves
them verbatim and never computes with them, the payload is modelled as an
opaque `Int` value per element.
-/

namespace NCNN

/-! ### Layout Bridge (NCNNRuntime::Run, ncnn_runtime.cc lines 78-131)

The engine-side tensor (an ncnn::Mat) is channel-plane storage: we model it
as a function from (channel, offset-within-plane) to the stored element.
The host-side tensor is a flat row-major buffer: a function from flat index
to element. -/

/-- The copy-in loop of NCNNRuntime::Run (lines 86-96): for every
channel c < C, row h < H, column w < W of the engine input Mat, write

  channel(c)[h * W + w] := flat[c * H * W + h * W + w].

State is passed explicitly: `m0` is the engine Mat before the loop. -/
def runCopyIn (flat : Nat → Int) (C H W : Nat) (m0 : Nat × Nat → Int) :
    Nat × Nat → Int :=
  (List.range C).foldl (fun mc c =>
    (List.range H).foldl (fun mh h =>
      (List.range W).foldl (fun mw w =>
        Function.update mw (c, h * W + w) (flat (c * H * W + h * W + w))) mh) mc) m0

/-- The copy-out loop of NCNNRuntime::Run (lines 122-129): for every
channel c < cdim, row h < hdim, column w < wdim of the engine output Mat,
write

  flat[c * hdim * wdim + h * wdim + w] := channel(c)[h * wdim + w].

`o0` is the host output buffer before the loop. -/
def runCopyOut (mat : Nat × Nat → Int) (cdim hdim wdim : Nat) (o0 : Nat → Int) :
    Nat → Int :=
  (List.range cdim).foldl (fun oc c =>
    (List.range hdim).foldl (fun oh h =>
      (List.range wdim).foldl (fun ow w =>
        Function.update ow (c * hdim * wdim + h * wdim + w) (mat (c, h * wdim + w))) oh) oc) o0

/-- The rank dispatch of the copy-out path of NCNNRuntime::Run
(lines 106-121): wdim, hdim, cdim start at 1; rank 2 sets wdim = shape[1];
rank 4 sets wdim = shape[3], hdim = shape[2], cdim = shape[1]; any other
rank is LOG(FATAL) ("Unknow dim option."), modelled as `none`.
Returns (cdim, hdim, wdim). -/
def outTensorDims (shape : List Int) : Option (Nat × Nat × Nat) :=
  match shape.length with
  | 2 => some (1, 1, (shape.getD 1 0).toNat)
  | 4 => some ((shape.getD 1 0).toNat, (shape.getD 2 0).toNat, (shape.getD 3 0).toNat)
  | _ => none

/-- The rank dispatch of AllocateInputOutputTensors (ncnn_runtime.cc lines
191-206): w, h, c start at 1; rank 2 sets w = shape[1]; rank 4 sets
w = shape[3], h = shape[2], c = shape[1]; any other rank is LOG(FATAL)
("Unknow input dim option!"), modelled as `none`.  Returns (w, h, c), the
arguments of layer->in.create(w, h, c). -/
def inTensorDims (shape : List Int) : Option (Nat × Nat × Nat) :=
  match shape.length with
  | 2 => some ((shape.getD 1 0).toNat, 1, 1)
  | 4 => some ((shape.getD 3 0).toNat, (shape.getD 2 0).toNat, (shape.getD 1 0).toNat)
  | _ => none

/-! ### Composite Pattern Extractor (codegen.cc lines 80-99 and 142-161)

Relay expressions, as far as the extractor inspects them: a call to a named
primitive operator with an argument list, or any non-call expression (a
variable, constant, ...).  The C++ walks raw CallNode pointers obtained via
as<CallNode>(); a null pointer dereference inside backend::IsOp and an
out-of-bounds args[0] access are both fatal, modelled as `none`. -/
inductive Expr where
  | var : Nat → Expr
  | call : String → List Expr → Expr

/-- backend::IsOp on a (non-null) CallNode: the call's operator equals the
given primitive name. -/
def exprIsOp : Expr → String → Bool
  | Expr.call op _, name => op == name
  | Expr.var _, _ => false

/-- e.as<CallNode>(): `some` when the expression is a call, null otherwise. -/
def asCall : Expr → Option Expr
  | Expr.call op args => some (Expr.call op args)
  | _ => none

/-- current_call->args[0].as<CallNode>(): first argument of a call, as a
CallNode pointer (null when absent or not a call). -/
def argZeroAsCall : Expr → Option Expr
  | Expr.call _ (a :: _) => asCall a
  | _ => none

/-- The i-th argument of a call. -/
def argOf (e : Expr) (i : Nat) : Option Expr :=
  match e with
  | Expr.call _ args => args[i]?
  | _ => none

/-- CompositeDenseNode (codegen.cc lines 28-32): anchor dense call plus
optional bias-add call and optional activation call. -/
structure CompositeDenseNode where
  dense : Expr
  bias : Option Expr
  activation : Option Expr

/-- CompositeConvNode (codegen.cc lines 37-41). -/
structure CompositeConvNode where
  conv : Expr
  bias : Option Expr
  activation : Option Expr

/-- UnpackCompositeDense (codegen.cc lines 142-161): starting from the fused
function's body as a CallNode, optionally consume one nn.relu (recording it
as the activation and advancing to args[0]), then optionally one nn.bias_add
(recording it as the bias and advancing to args[0]); finally
ICHECK(backend::IsOp(current_call, "nn.dense")) requires the remaining call
to be the dense anchor.  All fatal paths (ICHECK failure, IsOp on a null
current_call) return `none`. -/
def UnpackCompositeDense (fnBody : Expr) : Option CompositeDenseNode :=
  match asCall fnBody with
  | none => none
  | some c0 =>
    let s1 : Option Expr × Option Expr :=
      if exprIsOp c0 "nn.relu" then (some c0, argZeroAsCall c0) else (none, some c0)
    match s1.2 with
    | none => none
    | some c1 =>
      let s2 : Option Expr × Option Expr :=
        if exprIsOp c1 "nn.bias_add" then (some c1, argZeroAsCall c1) else (none, some c1)
      match s2.2 with
      | none => none
      | some c2 =>
        if exprIsOp c2 "nn.dense" then some ⟨c2, s2.1, s1.1⟩ else none

/-- UnpackCompositeConvolution (codegen.cc lines 80-99): identical traversal
with nn.conv2d as the required anchor. -/
def UnpackCompositeConvolution (fnBody : Expr) : Option CompositeConvNode :=
  match asCall fnBody with
  | none => none
  | some c0 =>
    let s1 : Option Expr × Option Expr :=
      if exprIsOp c0 "nn.relu" then (some c0, argZeroAsCall c0) else (none, some c0)
    match s1.2 with
    | none => none
    | some c1 =>
      let s2 : Option Expr × Option Expr :=
        if exprIsOp c1 "nn.bias_add" then (some c1, argZeroAsCall c1) else (none, some c1)
      match s2.2 with
      | none => none
      | some c2 =>
        if exprIsOp c2 "nn.conv2d" then some ⟨c2, s2.1, s1.1⟩ else none

/-! ### Graph IR Serializer (codegen.cc lines 107-133 and 168-194) -/

/-- JSONGraphNodeEntry: a (node id, output index) reference. -/
structure Entry where
  id_ : Nat
  index_ : Nat
deriving DecidableEq, Repr

/-- A call to a fused composite function: the function's body and the call's
argument list (cn->op.as<FunctionNode>()->body and cn->args). -/
structure CompositeCall where
  body : Expr
  args : List Expr

/-- The JSONGraphNode emitted for a composite match: op name, op kind tag,
ordered input entries, output count, and the activation_type attribute when
present (SetCallNodeAttribute copies the anchor's remaining attributes
through the external base serializer, which is outside this system). -/
structure SerializedNode where
  name : String
  opType : String
  inputs : List Entry
  numOutputs : Nat
  activationType : Option (List String)
deriving DecidableEq, Repr

/-- CreateCompositeDenseJSONNode (codegen.cc lines 168-194).  `visit`
abstracts the base serializer's VisitExpr (whose returned vector's first
entry the source takes): it yields the graph entry for a sub-expression.
Inputs are pushed in source order: cn->args[0], then nodes.dense->args[1],
then - when a bias call was matched - nodes.bias->args[1].  The node is
created with name "nn.dense", kind "kernel" and one output; when an
activation was matched, activation_type is set (to ["relu"] exactly when the
activation call is nn.relu, otherwise to the empty vector, mirroring lines
184-191). -/
def CreateCompositeDenseJSONNode (visit : Expr → Entry) (cn : CompositeCall) :
    Option SerializedNode :=
  match UnpackCompositeDense cn.body with
  | none => none
  | some nodes =>
    match cn.args[0]?, argOf nodes.dense 1 with
    | some a0, some w =>
      let withBias : Option (List Entry) :=
        match nodes.bias with
        | some b =>
          match argOf b 1 with
          | some bb => some [visit a0, visit w, visit bb]
          | none => none
        | none => some [visit a0, visit w]
      match withBias with
      | none => none
      | some inputs =>
        some { name := "nn.dense", opType := "kernel", inputs := inputs,
               numOutputs := 1,
               activationType := nodes.activation.map (fun a =>
                 if exprIsOp a "nn.relu" then ["relu"] else []) }
    | _, _ => none

/-- CreateCompositeConvJSONNode (codegen.cc lines 107-133): same shape with
the conv anchor and name "nn.conv2d". -/
def CreateCompositeConvJSONNode (visit : Expr → Entry) (cn : CompositeCall) :
    Option SerializedNode :=
  match UnpackCompositeConvolution cn.body with
  | none => none
  | some nodes =>
    match cn.args[0]?, argOf nodes.conv 1 with
    | some a0, some w =>
      let withBias : Option (List Entry) :=
        match nodes.bias with
        | some b =>
          match argOf b 1 with
          | some bb => some [visit a0, visit w, visit bb]
          | none => none
        | none => some [visit a0, visit w]
      match withBias with
      | none => none
      | some inputs =>
        some { name := "nn.conv2d", opType := "kernel", inputs := inputs,
               numOutputs := 1,
               activationType := nodes.activation.map (fun a =>
                 if exprIsOp a "nn.relu" then ["relu"] else []) }
    | _, _ => none

/-! ### Runtime data model (ncnn_runtime.cc)

A JSONGraphNode as the runtime sees it: op kind tag, op name, ordered input
entries, the node's first declared output shape (GetOpShape()[0]), the
attribute map, and the output count.  A data entry (DLTensor) is a shape
plus an unbounded flat buffer; `dataEntry` abstracts the composition of
EntryID and the data_entry_ array of the base JSON runtime. -/
structure JNode where
  opType : String
  opName : String
  inputs : List Entry
  shape : List Int
  attrs : List (String × List String)
  numOutputs : Nat
deriving DecidableEq, Repr

/-- GetAttr: the first recorded value list for the key; the base runtime
fails (dmlc any cast) when the key is absent, modelled as `none`. -/
def JNode.getAttr (n : JNode) (key : String) : Option (List String) :=
  ((n.attrs.filter (fun a => a.1 == key)).head?).map (fun a => a.2)

/-- A DLTensor: declared shape and flat row-major payload. -/
structure Tensor where
  shape : List Int
  data : Nat → Int

/-- The data_size accumulation of the builders: data_size starts at 1 and is
multiplied by every shape dimension in order. -/
def tensorSize (t : Tensor) : Int :=
  t.shape.foldl (fun a d => a * d) 1

/-- The element-by-element copy loop `for ii < size: weights[k][ii] :=
buffer[ii]`: the first `size` payload elements in row-major order. -/
def tensorFlat (t : Tensor) : List Int :=
  (List.range (tensorSize t).toNat).map t.data

/-- An ncnn::ParamDict: the ordered sequence of pd.set(key, value) calls. -/
structure ParamDict where
  entries : List (Nat × Int)
deriving DecidableEq, Repr

/-- pd.set(k, v). -/
def ParamDict.set (pd : ParamDict) (k : Nat) (v : Int) : ParamDict :=
  ⟨pd.entries ++ [(k, v)]⟩

/-- The value a later pd.get(k) would observe: the last value set for k. -/
def ParamDict.get (pd : ParamDict) (k : Nat) : Option Int :=
  ((pd.entries.filter (fun e => e.1 == k)).getLast?).map (fun e => e.2)

/-- The layer state a builder hands back: the parameter dictionary loaded
via load_param and the weight Mat array loaded via load_model
(weights[0], weights[1], ... as flat element lists; a never-written Mat is
the empty list). -/
structure BuiltLayer where
  pd : ParamDict
  weights : List (List Int)
deriving DecidableEq, Repr

/-- The shared activation_type fragment of both builders (ncnn_runtime.cc
lines 282-288 and 365-371): when the node has the attribute and its first
value is "relu", pd.set(9, 1); reading value [0] of an empty attribute
vector is out of bounds, modelled as `none`. -/
def applyActivation (node : JNode) (pd : ParamDict) : Option ParamDict :=
  match node.getAttr "activation_type" with
  | some (a :: _) => some (if a == "relu" then pd.set 9 1 else pd)
  | some [] => none
  | none => some pd

/-- One iteration of the input loop of CreateInnerProductLayer
(ncnn_runtime.cc lines 373-412): `p` is the pair (loop index i, input
entry); state is the parameter dictionary and weight array built so far
(`none` once a fatal path was taken). -/
def ipLoopStep (nodes : List JNode) (dataEntry : Entry → Tensor)
    (st : Option (ParamDict × List (List Int))) (p : Nat × Entry) :
    Option (ParamDict × List (List Int)) :=
  match st with
  | none => none
  | some (pd, ws) =>
    match nodes[p.2.id_]? with
    | none => none
    | some inNode =>
      if inNode.opType == "const" then
        if p.1 = 1 then
          let t := dataEntry p.2
          match t.shape.head? with
          | none => none
          | some d0 =>
            some ((pd.set 0 d0).set 2 (tensorSize t), ws.set 0 (tensorFlat t))
        else if p.1 = 2 then
          some (pd, ws.set 1 (tensorFlat (dataEntry p.2)))
        else some (pd, ws)
      else some (pd, ws)

/-- CreateInnerProductLayer (ncnn_runtime.cc lines 342-418).
ICHECK(2 <= inputs <= 3); pd.set(1, has_bias); the activation fragment; then
for every input i whose node is "const": at i = 1, pd.set(0, data_shape[0])
and pd.set(2, data_size) and copy the weight elements into weights[0]; at
i = 2, copy the bias elements into weights[1].  Reading data_shape[0] of a
rank-0 tensor and looking up an out-of-range node id are undefined
behaviour, modelled as `none`. -/
def CreateInnerProductLayer (nodes : List JNode) (dataEntry : Entry → Tensor)
    (node : JNode) : Option BuiltLayer :=
  let inputs := node.inputs
  let numInputs := inputs.length
  if 2 ≤ numInputs ∧ numInputs ≤ 3 then
    let hasBias := numInputs = 3
    let pd : ParamDict := ⟨[]⟩
    let pd := if hasBias then pd.set 1 1 else pd.set 1 0
    let ws : List (List Int) := if hasBias then [[], []] else [[]]
    match applyActivation node pd with
    | none => none
    | some pd =>
      match ((List.range numInputs).zip inputs).foldl
          (ipLoopStep nodes dataEntry) (some (pd, ws)) with
      | none => none
      | some st => some ⟨st.1, st.2⟩
  else none

/-- Digit accumulation of std::stoi: consume the leading digit run, ignore
everything from the first non-digit on. -/
def stoiGo : List Char → Nat → Nat
  | [], acc => acc
  | c :: cs, acc => if c.isDigit then stoiGo cs (acc * 10 + (c.toNat - 48)) else acc

/-- The digit-run part of std::stoi: at least one leading digit is
required, otherwise stoi throws (modelled as `none`). -/
def stoiNat : List Char → Option Nat
  | [] => none
  | c :: cs => if c.isDigit then some (stoiGo cs (c.toNat - 48)) else none

/-- std::stoi on an attribute string: an optional sign followed by a
non-empty digit run; characters after the digit run are ignored (stoi stops
at the first non-digit); a string with no leading integer throws, modelled
as `none`.  (Leading whitespace, which stoi would skip, never occurs in
these attributes.) -/
def stoi (s : String) : Option Int :=
  match s.data with
  | '-' :: cs => (stoiNat cs).map (fun n => -(n : Int))
  | '+' :: cs => (stoiNat cs).map (fun n => (n : Int))
  | cs => (stoiNat cs).map (fun n => (n : Int))

/-- CreateConv2dLayer (ncnn_runtime.cc lines 252-340).
ICHECK(2 <= inputs <= 3); fetch the channels / kernel_size / padding /
strides / dilation attributes (a missing attribute is fatal); pd.set keys
0..4 from std::stoi of entry [0] of each list only; pd.set(5, bias flag);
the activation fragment; then, when the weight input's node is "const",
pd.set(6, weight element count) and copy the weight into weights[0]; with 3
inputs the bias copy into weights[1] is guarded by the *weight* node's kind
(line 316 re-tests weight_node, not bias_node). -/
def CreateConv2dLayer (nodes : List JNode) (dataEntry : Entry → Tensor)
    (node : JNode) : Option BuiltLayer :=
  let inputs := node.inputs
  if 2 ≤ inputs.length ∧ inputs.length ≤ 3 then
    match node.getAttr "channels", node.getAttr "kernel_size",
          node.getAttr "padding", node.getAttr "strides",
          node.getAttr "dilation" with
    | some channels, some kernelSizes, some padding, some strides, some dilation =>
      match channels.head?.bind stoi, kernelSizes.head?.bind stoi,
            dilation.head?.bind stoi, strides.head?.bind stoi,
            padding.head?.bind stoi with
      | some ch, some ks, some dil, some st, some pad =>
        let pd : ParamDict := ⟨[]⟩
        let pd := ((((pd.set 0 ch).set 1 ks).set 2 dil).set 3 st).set 4 pad
        let pd := if inputs.length = 2 then pd.set 5 0 else pd.set 5 1
        let ws : List (List Int) := if inputs.length = 2 then [[]] else [[], []]
        match applyActivation node pd with
        | none => none
        | some pd =>
          match inputs[1]? with
          | none => none
          | some wEntry =>
            match nodes[wEntry.id_]? with
            | none => none
            | some weightNode =>
              let wt := dataEntry wEntry
              let pd1 := if weightNode.opType == "const"
                         then pd.set 6 (tensorSize wt) else pd
              let ws1 := if weightNode.opType == "const"
                         then ws.set 0 (tensorFlat wt) else ws
              if inputs.length = 3 then
                match inputs[2]? with
                | none => none
                | some bEntry =>
                  match nodes[bEntry.id_]? with
                  | none => none
                  | some _biasNode =>
                    if weightNode.opType == "const" then
                      some ⟨pd1, ws1.set 1 (tensorFlat (dataEntry bEntry))⟩
                    else some ⟨pd1, ws1⟩
              else some ⟨pd1, ws1⟩
      | _, _, _, _, _ => none
    | _, _, _, _, _ => none
  else none

/-- CreateReshapeLayer (ncnn_runtime.cc lines 420-433): fixed parameters
pd.set(0, -1) and pd.set(1, 1), no weights. -/
def CreateReshapeLayer (_node : JNode) : BuiltLayer :=
  ⟨(ParamDict.mk []).set 0 (-1) |>.set 1 1, []⟩

/-- AllocateInputOutputTensors (ncnn_runtime.cc lines 180-211), as explicit
recursion over the input node id list: a second node of kind "input" is
LOG(FATAL); for each "input" node, layer->in is created from the rank
dispatch of its declared shape.  Returns the final created dimensions
(`none` inside `some` when no input node was seen, so no create ran). -/
def allocGo (nodes : List JNode) :
    List Nat → Bool → Option (Nat × Nat × Nat) → Option (Option (Nat × Nat × Nat))
  | [], _, acc => some acc
  | nid :: rest, found, acc =>
    match nodes[nid]? with
    | none => none
    | some node =>
      if node.opType == "input" then
        if found then none
        else
          match inTensorDims node.shape with
          | none => none
          | some dims => allocGo nodes rest true (some dims)
      else allocGo nodes rest found acc

/-- AllocateInputOutputTensors entry point. -/
def AllocateInputOutputTensors (nodes : List JNode) (inputNodeIds : List Nat) :
    Option (Option (Nat × Nat × Nat)) :=
  allocGo nodes inputNodeIds false none

/-- The op-name dispatch of BuildEngine (ncnn_runtime.cc lines 150-159):
nn.dense, nn.conv2d and reshape go to their builders, anything else is
LOG(FATAL) "Unsupported op". -/
def createLayerDispatch (nodes : List JNode) (dataEntry : Entry → Tensor)
    (node : JNode) : Option BuiltLayer :=
  if node.opName == "nn.dense" then CreateInnerProductLayer nodes dataEntry node
  else if node.opName == "nn.conv2d" then CreateConv2dLayer nodes dataEntry node
  else if node.opName == "reshape" then some (CreateReshapeLayer node)
  else none

/-- The linear scan of BuildEngine (ncnn_runtime.cc lines 139-163): for each
node in order, first LOG(FATAL) if a kernel node was already found; then, if
this node is tagged "kernel", record it and dispatch to its builder; every
iteration ends by running AllocateInputOutputTensors.  State: the remaining
node list, the found_kernel_node flag, and the layer built so far. -/
def buildEngineGo (nodes : List JNode) (inputNodeIds : List Nat)
    (dataEntry : Entry → Tensor) :
    List JNode → Bool → Option BuiltLayer → Option (Bool × Option BuiltLayer)
  | [], found, layer => some (found, layer)
  | node :: rest, found, layer =>
    if found then none
    else if node.opType == "kernel" then
      match createLayerDispatch nodes dataEntry node with
      | none => none
      | some built =>
        match AllocateInputOutputTensors nodes inputNodeIds with
        | none => none
        | some _ => buildEngineGo nodes inputNodeIds dataEntry rest true (some built)
    else
      match AllocateInputOutputTensors nodes inputNodeIds with
      | none => none
      | some _ => buildEngineGo nodes inputNodeIds dataEntry rest found layer

/-- BuildEngine entry point: scan the whole node list starting with
found_kernel_node = false and no cached layer. -/
def BuildEngine (nodes : List JNode) (inputNodeIds : List Nat)
    (dataEntry : Entry → Tensor) : Option (Bool × Option BuiltLayer) :=
  buildEngineGo nodes inputNodeIds dataEntry nodes false none

/-! ### Concrete instances used to exercise the definitions -/

/-- A dense anchor call nn.dense(x, w). -/
def denseAnchorDemo : Expr := Expr.call "nn.dense" [Expr.var 0, Expr.var 1]

/-- nn.bias_add(nn.dense(x, w), b). -/
def biasCallDemo : Expr := Expr.call "nn.bias_add" [denseAnchorDemo, Expr.var 2]

/-- nn.relu(nn.bias_add(nn.dense(x, w), b)). -/
def reluCallDemo : Expr := Expr.call "nn.relu" [biasCallDemo]

/-- A visitor resolving variables to their index as a graph entry. -/
def visitDemo : Expr → Entry := fun e =>
  match e with
  | Expr.var n => ⟨n, 0⟩
  | _ => ⟨99, 0⟩

/-- A rank-2 input node of shape [1, 4]. -/
def inputNodeDemo : JNode := ⟨"input", "", [], [1, 4], [], 1⟩

/-- A constant weight node of shape [3, 4]. -/
def weightConstNodeDemo : JNode := ⟨"const", "", [], [3, 4], [], 1⟩

/-- A constant bias node of shape [3]. -/
def biasConstNodeDemo : JNode := ⟨"const", "", [], [3], [], 1⟩

/-- A dense kernel node with bias and fused relu. -/
def denseKernelNodeDemo : JNode :=
  ⟨"kernel", "nn.dense", [⟨0, 0⟩, ⟨1, 0⟩, ⟨2, 0⟩], [1, 3],
    [("activation_type", ["relu"])], 1⟩

/-- A dense kernel node without bias. -/
def denseKernel2NodeDemo : JNode :=
  ⟨"kernel", "nn.dense", [⟨0, 0⟩, ⟨1, 0⟩], [1, 3], [], 1⟩

/-- The serialized dense subgraph: input, weight, bias, kernel (kernel last). -/
def demoNodes : List JNode :=
  [inputNodeDemo, weightConstNodeDemo, biasConstNodeDemo, denseKernelNodeDemo]

/-- input_nodes_: the input and constant nodes of the dense subgraph. -/
def demoInputIds : List Nat := [0, 1, 2]

/-- Concrete bound tensors for the dense subgraph. -/
def demoDataEntry : Entry → Tensor := fun e =>
  if e.id_ = 1 then ⟨[3, 4], fun i => (i : Int)⟩
  else if e.id_ = 2 then ⟨[3], fun i => (100 + i : Int)⟩
  else ⟨[1, 4], fun _ => 0⟩

/-- A rank-4 input node of shape [1, 3, 5, 5]. -/
def inputConvNodeDemo : JNode := ⟨"input", "", [], [1, 3, 5, 5], [], 1⟩

/-- A constant conv weight node of shape [2, 3, 3, 3]. -/
def convWeightConstNodeDemo : JNode := ⟨"const", "", [], [2, 3, 3, 3], [], 1⟩

/-- A conv2d kernel node without bias, with per-axis attribute lists. -/
def convKernelNodeDemo : JNode :=
  ⟨"kernel", "nn.conv2d", [⟨0, 0⟩, ⟨1, 0⟩], [1, 2, 5, 5],
    [("channels", ["2"]), ("kernel_size", ["3", "3"]), ("padding", ["1", "1"]),
     ("strides", ["1", "1"]), ("dilation", ["1", "1"])], 1⟩

/-- The same conv2d kernel node with different trailing per-axis entries. -/
def convKernelNodeDemoTail : JNode :=
  ⟨"kernel", "nn.conv2d", [⟨0, 0⟩, ⟨1, 0⟩], [1, 2, 5, 5],
    [("channels", ["2"]), ("kernel_size", ["3", "7"]), ("padding", ["1", "9"]),
     ("strides", ["1", "8"]), ("dilation", ["1", "6"])], 1⟩

/-- The serialized conv subgraph. -/
def convDemoNodes : List JNode :=
  [inputConvNodeDemo, convWeightConstNodeDemo, convKernelNodeDemo]

/-- Concrete bound tensors for the conv subgraph. -/
def convDemoDataEntry : Entry → Tensor := fun e =>
  if e.id_ = 1 then ⟨[2, 3, 3, 3], fun i => (i : Int)⟩
  else ⟨[1, 3, 5, 5], fun _ => 0⟩

/-! ### Closed forms for the layout bridge loops -/

theorem runCopyIn_loopW (flat : Nat → Int) (H W c h : Nat) :
    ∀ (n : Nat) (m : Nat × Nat → Int) (p : Nat × Nat),
      ((List.range n).foldl (fun mw w =>
        Function.update mw (c, h * W + w) (flat (c * H * W + h * W + w))) m) p =
      if p.1 = c ∧ h * W ≤ p.2 ∧ p.2 < h * W + n then flat (c * H * W + p.2) else m p := by
  intro n
  induction n with
  | zero =>
    intro m p
    simp only [List.range_zero, List.foldl_nil]
    rw [if_neg]
    rintro ⟨_, h1, h2⟩
    omega
  | succ k ih =>
    intro m p
    rcases p with ⟨p1, p2⟩
    rw [List.range_succ, List.foldl_append, List.foldl_cons, List.foldl_nil,
      Function.update_apply, ih]
    by_cases hp : (p1, p2) = ((c, h * W + k) : Nat × Nat)
    · rw [if_pos hp]
      rcases Prod.mk.injEq .. ▸ hp with ⟨hp1, hp2⟩
      rw [if_pos]
      · subst hp2; congr 1; ring
      · refine ⟨hp1, ?_, ?_⟩ <;> omega
    · rw [if_neg hp]
      rcases Nat.lt_or_ge p2 (h * W + k) with hlt | hge
      · by_cases hc : p1 = c ∧ h * W ≤ p2 ∧ p2 < h * W + k
        · rw [if_pos hc, if_pos ⟨hc.1, hc.2.1, by omega⟩]
        · rw [if_neg hc, if_neg]
          rintro ⟨h1, h2, _⟩
          exact hc ⟨h1, h2, hlt⟩
      · rw [if_neg, if_neg]
        · rintro ⟨h1, h2, h3⟩
          have h1h : p1 = c := h1
          have hp2 : p2 = h * W + k := by omega
          exact hp (by rw [h1h, hp2])
        · rintro ⟨_, _, h3⟩
          omega

theorem runCopyIn_loopH (flat : Nat → Int) (H W c : Nat) :
    ∀ (n : Nat) (m : Nat × Nat → Int) (p : Nat × Nat),
      ((List.range n).foldl (fun mh h =>
        (List.range W).foldl (fun mw w =>
          Function.update mw (c, h * W + w) (flat (c * H * W + h * W + w))) mh) m) p =
      if p.1 = c ∧ p.2 < n * W then flat (c * H * W + p.2) else m p := by
  intro n
  induction n with
  | zero =>
    intro m p
    simp only [List.range_zero, List.foldl_nil, Nat.zero_mul]
    rw [if_neg]
    rintro ⟨_, h2⟩
    omega
  | succ k ih =>
    intro m p
    rw [List.range_succ, List.foldl_append, List.foldl_cons, List.foldl_nil,
      runCopyIn_loopW flat H W c k W, ih, Nat.succ_mul]
    by_cases hnew : p.1 = c ∧ k * W ≤ p.2 ∧ p.2 < k * W + W
    · rw [if_pos hnew, if_pos ⟨hnew.1, by omega⟩]
    · by_cases hold : p.1 = c ∧ p.2 < k * W
      · rw [if_neg hnew, if_pos hold, if_pos ⟨hold.1, by omega⟩]
      · rw [if_neg hnew, if_neg hold, if_neg]
        rintro ⟨h1, h2⟩
        rcases Nat.lt_or_ge p.2 (k * W) with hlt | hge
        · exact hold ⟨h1, hlt⟩
        · exact hnew ⟨h1, hge, h2⟩

theorem runCopyIn_apply (flat : Nat → Int) (C H W : Nat) (m0 : Nat × Nat → Int)
    (p : Nat × Nat) :
    runCopyIn flat C H W m0 p =
      if p.1 < C ∧ p.2 < H * W then flat (p.1 * H * W + p.2) else m0 p := by
  unfold runCopyIn
  suffices hgen : ∀ (n : Nat) (m : Nat × Nat → Int) (p : Nat × Nat),
      ((List.range n).foldl (fun mc c =>
        (List.range H).foldl (fun mh h =>
          (List.range W).foldl (fun mw w =>
            Function.update mw (c, h * W + w) (flat (c * H * W + h * W + w))) mh) mc) m) p =
      if p.1 < n ∧ p.2 < H * W then flat (p.1 * H * W + p.2) else m p by
    exact hgen C m0 p
  intro n
  induction n with
  | zero =>
    intro m p
    simp only [List.range_zero, List.foldl_nil]
    rw [if_neg]
    rintro ⟨h1, _⟩
    omega
  | succ k ih =>
    intro m p
    rw [List.range_succ, List.foldl_append, List.foldl_cons, List.foldl_nil,
      runCopyIn_loopH flat H W k, ih]
    by_cases hnew : p.1 = k ∧ p.2 < H * W
    · rw [if_pos hnew, if_pos ⟨by omega, hnew.2⟩, hnew.1]
    · by_cases hold : p.1 < k ∧ p.2 < H * W
      · rw [if_neg hnew, if_pos hold, if_pos ⟨by omega, hold.2⟩]
      · rw [if_neg hnew, if_neg hold, if_neg]
        rintro ⟨h1, h2⟩
        rcases Nat.lt_or_ge p.1 k with hlt | hge
        · exact hold ⟨hlt, h2⟩
        · exact hnew ⟨by omega, h2⟩

theorem runCopyOut_loopW (mat : Nat × Nat → Int) (hdim wdim c h : Nat) :
    ∀ (n : Nat) (o : Nat → Int) (j : Nat),
      ((List.range n).foldl (fun ow w =>
        Function.update ow (c * hdim * wdim + h * wdim + w) (mat (c, h * wdim + w))) o) j =
      if c * hdim * wdim + h * wdim ≤ j ∧ j < c * hdim * wdim + h * wdim + n
      then mat (c, j - c * hdim * wdim) else o j := by
  intro n
  induction n with
  | zero =>
    intro o j
    simp only [List.range_zero, List.foldl_nil]
    rw [if_neg]
    rintro ⟨h1, h2⟩
    omega
  | succ k ih =>
    intro o j
    rw [List.range_succ, List.foldl_append, List.foldl_cons, List.foldl_nil,
      Function.update_apply, ih]
    by_cases hj : j = c * hdim * wdim + h * wdim + k
    · have hsub : c * hdim * wdim + h * wdim + k - c * hdim * wdim = h * wdim + k := by
        omega
      rw [if_pos hj, if_pos (by omega), hj, hsub]
    · rw [if_neg hj]
      by_cases hc : c * hdim * wdim + h * wdim ≤ j ∧ j < c * hdim * wdim + h * wdim + k
      · rw [if_pos hc, if_pos ⟨hc.1, by omega⟩]
      · rw [if_neg hc, if_neg]
        rintro ⟨h1, h2⟩
        exact hc ⟨h1, by omega⟩

theorem runCopyOut_loopH (mat : Nat × Nat → Int) (hdim wdim c : Nat) :
    ∀ (n : Nat) (o : Nat → Int) (j : Nat),
      ((List.range n).foldl (fun oh h =>
        (List.range wdim).foldl (fun ow w =>
          Function.update ow (c * hdim * wdim + h * wdim + w) (mat (c, h * wdim + w))) oh) o) j =
      if c * hdim * wdim ≤ j ∧ j < c * hdim * wdim + n * wdim
      then mat (c, j - c * hdim * wdim) else o j := by
  intro n
  induction n with
  | zero =>
    intro o j
    simp only [List.range_zero, List.foldl_nil, Nat.zero_mul]
    rw [if_neg]
    rintro ⟨h1, h2⟩
    omega
  | succ k ih =>
    intro o j
    rw [List.range_succ, List.foldl_append, List.foldl_cons, List.foldl_nil,
      runCopyOut_loopW mat hdim wdim c k, ih, Nat.succ_mul]
    by_cases hnew : c * hdim * wdim + k * wdim ≤ j ∧ j < c * hdim * wdim + k * wdim + wdim
    · rw [if_pos hnew, if_pos (by omega)]
    · by_cases hold : c * hdim * wdim ≤ j ∧ j < c * hdim * wdim + k * wdim
      · rw [if_neg hnew, if_pos hold, if_pos (by omega)]
      · rw [if_neg hnew, if_neg hold, if_neg]
        rintro ⟨h1, h2⟩
        rcases Nat.lt_or_ge j (c * hdim * wdim + k * wdim) with hlt | hge
        · exact hold ⟨h1, hlt⟩
        · exact hnew ⟨hge, by omega⟩

theorem runCopyOut_apply (mat : Nat × Nat → Int) (cdim hdim wdim : Nat)
    (o0 : Nat → Int) (j : Nat) :
    runCopyOut mat cdim hdim wdim o0 j =
      if j < cdim * hdim * wdim
      then mat (j / (hdim * wdim), j % (hdim * wdim)) else o0 j := by
  unfold runCopyOut
  suffices hgen : ∀ (n : Nat) (o : Nat → Int) (j : Nat),
      ((List.range n).foldl (fun oc c =>
        (List.range hdim).foldl (fun oh h =>
          (List.range wdim).foldl (fun ow w =>
            Function.update ow (c * hdim * wdim + h * wdim + w)
              (mat (c, h * wdim + w))) oh) oc) o) j =
      if j < n * hdim * wdim
      then mat (j / (hdim * wdim), j % (hdim * wdim)) else o j by
    exact hgen cdim o0 j
  intro n
  induction n with
  | zero =>
    intro o j
    simp only [List.range_zero, List.foldl_nil, Nat.zero_mul]
    rw [if_neg]
    omega
  | succ k ih =>
    intro o j
    rw [List.range_succ, List.foldl_append, List.foldl_cons, List.foldl_nil,
      runCopyOut_loopH mat hdim wdim k, ih, Nat.succ_mul, Nat.add_mul]
    by_cases hnew : k * hdim * wdim ≤ j ∧ j < k * hdim * wdim + hdim * wdim
    · rw [if_pos hnew, if_pos (by omega)]
      have hdv : j / (hdim * wdim) = k := by
        refine Nat.div_eq_of_lt_le ?_ ?_
        · calc k * (hdim * wdim) = k * hdim * wdim := by ring
          _ ≤ j := hnew.1
        · calc j < k * hdim * wdim + hdim * wdim := hnew.2
          _ = (k + 1) * (hdim * wdim) := by ring
      have hmd := Nat.div_add_mod j (hdim * wdim)
      rw [hdv] at hmd
      have hatom : hdim * wdim * k = k * hdim * wdim := by ring
      have hsub : j - k * hdim * wdim = j % (hdim * wdim) := by omega
      rw [hdv, hsub]
    · by_cases hold : j < k * hdim * wdim
      · rw [if_neg hnew, if_pos hold, if_pos (by omega)]
      · rw [if_neg hnew, if_neg hold, if_neg]
        omega

theorem outTensorDims_eq_none (shape : List Int) (h2 : shape.length ≠ 2)
    (h4 : shape.length ≠ 4) : outTensorDims shape = none := by
  unfold outTensorDims
  split <;> simp_all

theorem inTensorDims_eq_none (shape : List Int) (h2 : shape.length ≠ 2)
    (h4 : shape.length ≠ 4) : inTensorDims shape = none := by
  unfold inTensorDims
  split <;> simp_all

/-- C4: for a rank-4 tensor of shape [1,C,H,W] (the rank-2 shape [1,W] is
the instance C = H = 1), the Layout Bridge copy-in (flat buffer into the
engine's channel-plane Mat) followed by copy-out (engine Mat back into a
flat buffer) reproduces the original flat buffer exactly at every element
of the tensor, whatever the two buffers held before. -/
theorem claim_C4_layout_roundtrip (flat : Nat → Int) (C H W : Nat)
    (m0 : Nat × Nat → Int) (o0 : Nat → Int) (j : Nat) (hj : j < C * H * W) :
    runCopyOut (runCopyIn flat C H W m0) C H W o0 j = flat j := by
  have hCHW : C * H * W = C * (H * W) := by ring
  have hpos : 0 < H * W := by
    rcases Nat.eq_zero_or_pos (H * W) with h0 | h
    · rw [hCHW, h0, Nat.mul_zero] at hj; omega
    · exact h
  rw [runCopyOut_apply, if_pos hj, runCopyIn_apply, if_pos ?cond]
  case cond =>
    constructor
    · rw [Nat.div_lt_iff_lt_mul hpos]
      rw [hCHW] at hj
      exact hj
    · exact Nat.mod_lt _ hpos
  show flat (j / (H * W) * H * W + j % (H * W)) = flat j
  congr 1
  have hmd := Nat.div_add_mod j (H * W)
  have hh : j / (H * W) * H * W = H * W * (j / (H * W)) := by ring
  omega

/-- C4 witness: a concrete [1,2,3,4] round trip at flat index 17. -/
theorem claim_C4_layout_roundtrip_witness :
    runCopyOut (runCopyIn (fun j => (j : Int)) 2 3 4 (fun _ => 0)) 2 3 4
      (fun _ => 0) 17 = 17 :=
  claim_C4_layout_roundtrip (fun j => (j : Int)) 2 3 4 (fun _ => 0) (fun _ => 0) 17
    (by decide)

/-- C5: the Layout Bridge index mapping.  For rank-4 data, engine element at
channel c, row h, column w corresponds to flat row-major index
c*H*W + h*W + w, in both directions; rank-2 shapes [batch, features] map
engine width w to flat index w (dims (1,1,features), so the mapping above
degenerates to the identity); any other tensor rank is fatal in both the
copy-out dispatch and the input allocation dispatch. -/
theorem claim_C5_layout_index_map :
    (∀ (flat : Nat → Int) (C H W : Nat) (m0 : Nat × Nat → Int) (c h w : Nat),
      c < C → h < H → w < W →
      runCopyIn flat C H W m0 (c, h * W + w) = flat (c * H * W + h * W + w)) ∧
    (∀ (mat : Nat × Nat → Int) (C H W : Nat) (o0 : Nat → Int) (c h w : Nat),
      c < C → h < H → w < W →
      runCopyOut mat C H W o0 (c * H * W + h * W + w) = mat (c, h * W + w)) ∧
    (∀ b w : Int, outTensorDims [b, w] = some (1, 1, w.toNat) ∧
      inTensorDims [b, w] = some (w.toNat, 1, 1)) ∧
    (∀ b c h w : Int, outTensorDims [b, c, h, w] = some (c.toNat, h.toNat, w.toNat) ∧
      inTensorDims [b, c, h, w] = some (w.toNat, h.toNat, c.toNat)) ∧
    (∀ shape : List Int, shape.length ≠ 2 → shape.length ≠ 4 →
      outTensorDims shape = none ∧ inTensorDims shape = none) := by
  refine ⟨?_, ?_, ?_, ?_, ?_⟩
  · intro flat C H W m0 c h w hc hh hw
    have hlt : h * W + w < H * W := by
      have h1 : h * W + w < (h + 1) * W := by rw [Nat.succ_mul]; omega
      have h2 : (h + 1) * W ≤ H * W := Nat.mul_le_mul_right W hh
      omega
    rw [runCopyIn_apply, if_pos ⟨hc, hlt⟩]
    congr 1
    ring
  · intro mat C H W o0 c h w hc hh hw
    have hlt : h * W + w < H * W := by
      have h1 : h * W + w < (h + 1) * W := by rw [Nat.succ_mul]; omega
      have h2 : (h + 1) * W ≤ H * W := Nat.mul_le_mul_right W hh
      omega
    have hj : c * H * W + h * W + w < C * H * W := by
      have h1 : c * H * W + h * W + w < c * H * W + H * W := by omega
      have h2 : c * H * W + H * W = (c + 1) * (H * W) := by ring
      have h3 : (c + 1) * (H * W) ≤ C * (H * W) := Nat.mul_le_mul_right (H * W) hc
      have h4 : C * (H * W) = C * H * W := by ring
      omega
    have hdv : (c * H * W + h * W + w) / (H * W) = c := by
      refine Nat.div_eq_of_lt_le ?_ ?_
      · have : c * (H * W) = c * H * W := by ring
        omega
      · have : (c + 1) * (H * W) = c * H * W + H * W := by ring
        omega
    have hmd := Nat.div_add_mod (c * H * W + h * W + w) (H * W)
    rw [hdv] at hmd
    have hx : H * W * c = c * H * W := by ring
    have hmod : (c * H * W + h * W + w) % (H * W) = h * W + w := by omega
    rw [runCopyOut_apply, if_pos hj, hdv, hmod]
  · intro b w
    exact ⟨rfl, rfl⟩
  · intro b c h w
    exact ⟨rfl, rfl⟩
  · intro shape h2 h4
    exact ⟨outTensorDims_eq_none shape h2 h4, inTensorDims_eq_none shape h2 h4⟩

/-- C5 witness: the mapping at channel 1, row 2, column 3 of a [1,2,3,4]
tensor, the two rank dispatches, and fatality at rank 1. -/
theorem claim_C5_layout_index_map_witness :
    runCopyIn (fun j => (j : Int)) 2 3 4 (fun _ => 0) (1, 2 * 4 + 3) =
      ((1 * 3 * 4 + 2 * 4 + 3 : Nat) : Int) ∧
    runCopyOut (fun p => (p.1 : Int) * 100 + p.2) 2 3 4 (fun _ => 0)
      (1 * 3 * 4 + 2 * 4 + 3) = ((1 : Nat) : Int) * 100 + (2 * 4 + 3 : Nat) ∧
    outTensorDims [1, 7] = some (1, 1, 7) ∧
    inTensorDims [1, 2, 3, 4] = some (4, 3, 2) ∧
    outTensorDims [5] = none := by
  refine ⟨?_, ?_, ?_, ?_, ?_⟩
  · exact claim_C5_layout_index_map.1 (fun j => (j : Int)) 2 3 4 (fun _ => 0) 1 2 3
      (by decide) (by decide) (by decide)
  · exact claim_C5_layout_index_map.2.1 (fun p => (p.1 : Int) * 100 + p.2) 2 3 4
      (fun _ => 0) 1 2 3 (by decide) (by decide) (by decide)
  · exact (claim_C5_layout_index_map.2.2.1 1 7).1
  · exact (claim_C5_layout_index_map.2.2.2.1 1 2 3 4).2
  · exact ((claim_C5_layout_index_map.2.2.2.2 [5]) (by decide) (by decide)).1

/-! ### Pattern extractor lemmas -/

theorem asCall_eq_some (e c : Expr) (h : asCall e = some c) :
    c = e ∧ ∃ op args, e = Expr.call op args := by
  cases e with
  | var n => simp [asCall] at h
  | call op args =>
    simp only [asCall, Option.some.injEq] at h
    exact ⟨h.symm, op, args, rfl⟩

theorem argZeroAsCall_eq_some (e c : Expr) (h : argZeroAsCall e = some c) :
    ∃ op rest, e = Expr.call op (c :: rest) := by
  cases e with
  | var n => simp [argZeroAsCall] at h
  | call op args =>
    cases args with
    | nil => simp [argZeroAsCall] at h
    | cons a rest =>
      simp only [argZeroAsCall] at h
      obtain ⟨hc, _⟩ := asCall_eq_some a c h
      exact ⟨op, rest, by rw [hc]⟩

theorem exprIsOp_true (e : Expr) (name : String) (h : exprIsOp e name = true) :
    ∃ args, e = Expr.call name args := by
  cases e with
  | var n => simp [exprIsOp] at h
  | call op args =>
    simp only [exprIsOp, beq_iff_eq] at h
    exact ⟨args, by rw [h]⟩

theorem unpackDense_shape (body : Expr) (r : CompositeDenseNode)
    (hr : UnpackCompositeDense body = some r) :
    (∃ args, r.dense = Expr.call "nn.dense" args) ∧
    ((r.activation = none ∧ r.bias = none ∧ body = r.dense) ∨
     (∃ b rest, r.activation = none ∧ r.bias = some b ∧ body = b ∧
        b = Expr.call "nn.bias_add" (r.dense :: rest)) ∨
     (∃ a rest, r.activation = some a ∧ r.bias = none ∧ body = a ∧
        a = Expr.call "nn.relu" (r.dense :: rest)) ∨
     (∃ a b rest1 rest2, r.activation = some a ∧ r.bias = some b ∧ body = a ∧
        a = Expr.call "nn.relu" (b :: rest1) ∧
        b = Expr.call "nn.bias_add" (r.dense :: rest2))) := by
  unfold UnpackCompositeDense at hr
  cases hb : asCall body with
  | none => rw [hb] at hr; cases hr
  | some c0 =>
    rw [hb] at hr
    obtain ⟨hc0b, _, _, _⟩ := asCall_eq_some body c0 hb
    subst hc0b
    simp only at hr
    cases hrelu : exprIsOp c0 "nn.relu" with
    | true =>
      rw [hrelu] at hr
      simp only [if_true] at hr
      cases ha0 : argZeroAsCall c0 with
      | none => rw [ha0] at hr; cases hr
      | some c1 =>
        rw [ha0] at hr
        simp only at hr
        obtain ⟨op0, rest0, hbody⟩ := argZeroAsCall_eq_some c0 c1 ha0
        cases hbias : exprIsOp c1 "nn.bias_add" with
        | true =>
          rw [hbias] at hr
          simp only [if_true] at hr
          cases ha1 : argZeroAsCall c1 with
          | none => rw [ha1] at hr; cases hr
          | some c2 =>
            rw [ha1] at hr
            simp only at hr
            obtain ⟨op1, rest1, hc1⟩ := argZeroAsCall_eq_some c1 c2 ha1
            cases hdense : exprIsOp c2 "nn.dense" with
            | true =>
              rw [hdense] at hr
              simp only [if_true, Option.some.injEq] at hr
              obtain ⟨dargs, hd⟩ := exprIsOp_true c2 "nn.dense" hdense
              obtain ⟨rargs, hrl⟩ := exprIsOp_true c0 "nn.relu" hrelu
              obtain ⟨bargs, hbl⟩ := exprIsOp_true c1 "nn.bias_add" hbias
              subst hr
              refine ⟨⟨dargs, hd⟩, Or.inr (Or.inr (Or.inr ⟨c0, c1, rest0, rest1, rfl, rfl, rfl, ?_, ?_⟩))⟩
              · rw [hbody] at hrl ⊢
                cases hrl
                rfl
              · rw [hc1] at hbl ⊢
                cases hbl
                rfl
            | false =>
              rw [hdense] at hr
              simp only [Bool.false_eq_true, if_false] at hr
              cases hr
        | false =>
          rw [hbias] at hr
          simp only [Bool.false_eq_true, if_false] at hr
          cases hdense : exprIsOp c1 "nn.dense" with
          | true =>
            rw [hdense] at hr
            simp only [if_true, Option.some.injEq] at hr
            obtain ⟨dargs, hd⟩ := exprIsOp_true c1 "nn.dense" hdense
            obtain ⟨rargs, hrl⟩ := exprIsOp_true c0 "nn.relu" hrelu
            subst hr
            refine ⟨⟨dargs, hd⟩, Or.inr (Or.inr (Or.inl ⟨c0, rest0, rfl, rfl, rfl, ?_⟩))⟩
            rw [hbody] at hrl ⊢
            cases hrl
            rfl
          | false =>
            rw [hdense] at hr
            simp only [Bool.false_eq_true, if_false] at hr
            cases hr
    | false =>
      rw [hrelu] at hr
      simp only [Bool.false_eq_true, if_false] at hr
      cases hbias : exprIsOp c0 "nn.bias_add" with
      | true =>
        rw [hbias] at hr
        simp only [if_true] at hr
        cases ha1 : argZeroAsCall c0 with
        | none => rw [ha1] at hr; cases hr
        | some c2 =>
          rw [ha1] at hr
          simp only at hr
          obtain ⟨op1, rest1, hc1⟩ := argZeroAsCall_eq_some c0 c2 ha1
          cases hdense : exprIsOp c2 "nn.dense" with
          | true =>
            rw [hdense] at hr
            simp only [if_true, Option.some.injEq] at hr
            obtain ⟨dargs, hd⟩ := exprIsOp_true c2 "nn.dense" hdense
            obtain ⟨bargs, hbl⟩ := exprIsOp_true c0 "nn.bias_add" hbias
            subst hr
            refine ⟨⟨dargs, hd⟩, Or.inr (Or.inl ⟨c0, rest1, rfl, rfl, rfl, ?_⟩)⟩
            rw [hc1] at hbl ⊢
            cases hbl
            rfl
          | false =>
            rw [hdense] at hr
            simp only [Bool.false_eq_true, if_false] at hr
            cases hr
      | false =>
        rw [hbias] at hr
        simp only [Bool.false_eq_true, if_false] at hr
        cases hdense : exprIsOp c0 "nn.dense" with
        | true =>
          rw [hdense] at hr
          simp only [if_true, Option.some.injEq] at hr
          obtain ⟨dargs, hd⟩ := exprIsOp_true c0 "nn.dense" hdense
          subst hr
          exact ⟨⟨dargs, hd⟩, Or.inl ⟨rfl, rfl, rfl⟩⟩
        | false =>
          rw [hdense] at hr
          simp only [Bool.false_eq_true, if_false] at hr
          cases hr

theorem unpackConv_shape (body : Expr) (r : CompositeConvNode)
    (hr : UnpackCompositeConvolution body = some r) :
    (∃ args, r.conv = Expr.call "nn.conv2d" args) ∧
    ((r.activation = none ∧ r.bias = none ∧ body = r.conv) ∨
     (∃ b rest, r.activation = none ∧ r.bias = some b ∧ body = b ∧
        b = Expr.call "nn.bias_add" (r.conv :: rest)) ∨
     (∃ a rest, r.activation = some a ∧ r.bias = none ∧ body = a ∧
        a = Expr.call "nn.relu" (r.conv :: rest)) ∨
     (∃ a b rest1 rest2, r.activation = some a ∧ r.bias = some b ∧ body = a ∧
        a = Expr.call "nn.relu" (b :: rest1) ∧
        b = Expr.call "nn.bias_add" (r.conv :: rest2))) := by
  unfold UnpackCompositeConvolution at hr
  cases hb : asCall body with
  | none => rw [hb] at hr; cases hr
  | some c0 =>
    rw [hb] at hr
    obtain ⟨hc0b, _, _, _⟩ := asCall_eq_some body c0 hb
    subst hc0b
    simp only at hr
    cases hrelu : exprIsOp c0 "nn.relu" with
    | true =>
      rw [hrelu] at hr
      simp only [if_true] at hr
      cases ha0 : argZeroAsCall c0 with
      | none => rw [ha0] at hr; cases hr
      | some c1 =>
        rw [ha0] at hr
        simp only at hr
        obtain ⟨op0, rest0, hbody⟩ := argZeroAsCall_eq_some c0 c1 ha0
        cases hbias : exprIsOp c1 "nn.bias_add" with
        | true =>
          rw [hbias] at hr
          simp only [if_true] at hr
          cases ha1 : argZeroAsCall c1 with
          | none => rw [ha1] at hr; cases hr
          | some c2 =>
            rw [ha1] at hr
            simp only at hr
            obtain ⟨op1, rest1, hc1⟩ := argZeroAsCall_eq_some c1 c2 ha1
            cases hconv : exprIsOp c2 "nn.conv2d" with
            | true =>
              rw [hconv] at hr
              simp only [if_true, Option.some.injEq] at hr
              obtain ⟨dargs, hd⟩ := exprIsOp_true c2 "nn.conv2d" hconv
              obtain ⟨rargs, hrl⟩ := exprIsOp_true c0 "nn.relu" hrelu
              obtain ⟨bargs, hbl⟩ := exprIsOp_true c1 "nn.bias_add" hbias
              subst hr
              refine ⟨⟨dargs, hd⟩, Or.inr (Or.inr (Or.inr ⟨c0, c1, rest0, rest1, rfl, rfl, rfl, ?_, ?_⟩))⟩
              · rw [hbody] at hrl ⊢
                cases hrl
                rfl
              · rw [hc1] at hbl ⊢
                cases hbl
                rfl
            | false =>
              rw [hconv] at hr
              simp only [Bool.false_eq_true, if_false] at hr
              cases hr
        | false =>
          rw [hbias] at hr
          simp only [Bool.false_eq_true, if_false] at hr
          cases hconv : exprIsOp c1 "nn.conv2d" with
          | true =>
            rw [hconv] at hr
            simp only [if_true, Option.some.injEq] at hr
            obtain ⟨dargs, hd⟩ := exprIsOp_true c1 "nn.conv2d" hconv
            obtain ⟨rargs, hrl⟩ := exprIsOp_true c0 "nn.relu" hrelu
            subst hr
            refine ⟨⟨dargs, hd⟩, Or.inr (Or.inr (Or.inl ⟨c0, rest0, rfl, rfl, rfl, ?_⟩))⟩
            rw [hbody] at hrl ⊢
            cases hrl
            rfl
          | false =>
            rw [hconv] at hr
            simp only [Bool.false_eq_true, if_false] at hr
            cases hr
    | false =>
      rw [hrelu] at hr
      simp only [Bool.false_eq_true, if_false] at hr
      cases hbias : exprIsOp c0 "nn.bias_add" with
      | true =>
        rw [hbias] at hr
        simp only [if_true] at hr
        cases ha1 : argZeroAsCall c0 with
        | none => rw [ha1] at hr; cases hr
        | some c2 =>
          rw [ha1] at hr
          simp only at hr
          obtain ⟨op1, rest1, hc1⟩ := argZeroAsCall_eq_some c0 c2 ha1
          cases hconv : exprIsOp c2 "nn.conv2d" with
          | true =>
            rw [hconv] at hr
            simp only [if_true, Option.some.injEq] at hr
            obtain ⟨dargs, hd⟩ := exprIsOp_true c2 "nn.conv2d" hconv
            obtain ⟨bargs, hbl⟩ := exprIsOp_true c0 "nn.bias_add" hbias
            subst hr
            refine ⟨⟨dargs, hd⟩, Or.inr (Or.inl ⟨c0, rest1, rfl, rfl, rfl, ?_⟩)⟩
            rw [hc1] at hbl ⊢
            cases hbl
            rfl
          | false =>
            rw [hconv] at hr
            simp only [Bool.false_eq_true, if_false] at hr
            cases hr
      | false =>
        rw [hbias] at hr
        simp only [Bool.false_eq_true, if_false] at hr
        cases hconv : exprIsOp c0 "nn.conv2d" with
        | true =>
          rw [hconv] at hr
          simp only [if_true, Option.some.injEq] at hr
          obtain ⟨dargs, hd⟩ := exprIsOp_true c0 "nn.conv2d" hconv
          subst hr
          exact ⟨⟨dargs, hd⟩, Or.inl ⟨rfl, rfl, rfl⟩⟩
        | false =>
          rw [hconv] at hr
          simp only [Bool.false_eq_true, if_false] at hr
          cases hr

/-- C3: pattern extraction walks from the outermost call of the fused body,
optionally consuming one nn.relu activation and then one nn.bias_add, each
advancing to the consumed call's first argument; it succeeds only when the
call reached after these optional trailing operators is the designated
anchor primitive (nn.dense resp. nn.conv2d), so every successful match has
one of the four shapes anchor / bias(anchor) / relu(anchor) /
relu(bias(anchor)).  In particular a body relu(unknown_op(x)) with no
recognized anchor fails fatally in both families. -/
theorem claim_C3_extraction_requires_anchor :
    (∀ (body : Expr) (r : CompositeDenseNode), UnpackCompositeDense body = some r →
      (∃ args, r.dense = Expr.call "nn.dense" args) ∧
      ((r.activation = none ∧ r.bias = none ∧ body = r.dense) ∨
       (∃ b rest, r.activation = none ∧ r.bias = some b ∧ body = b ∧
          b = Expr.call "nn.bias_add" (r.dense :: rest)) ∨
       (∃ a rest, r.activation = some a ∧ r.bias = none ∧ body = a ∧
          a = Expr.call "nn.relu" (r.dense :: rest)) ∨
       (∃ a b rest1 rest2, r.activation = some a ∧ r.bias = some b ∧ body = a ∧
          a = Expr.call "nn.relu" (b :: rest1) ∧
          b = Expr.call "nn.bias_add" (r.dense :: rest2)))) ∧
    (∀ (body : Expr) (r : CompositeConvNode), UnpackCompositeConvolution body = some r →
      (∃ args, r.conv = Expr.call "nn.conv2d" args) ∧
      ((r.activation = none ∧ r.bias = none ∧ body = r.conv) ∨
       (∃ b rest, r.activation = none ∧ r.bias = some b ∧ body = b ∧
          b = Expr.call "nn.bias_add" (r.conv :: rest)) ∨
       (∃ a rest, r.activation = some a ∧ r.bias = none ∧ body = a ∧
          a = Expr.call "nn.relu" (r.conv :: rest)) ∨
       (∃ a b rest1 rest2, r.activation = some a ∧ r.bias = some b ∧ body = a ∧
          a = Expr.call "nn.relu" (b :: rest1) ∧
          b = Expr.call "nn.bias_add" (r.conv :: rest2)))) ∧
    UnpackCompositeDense
      (Expr.call "nn.relu" [Expr.call "unknown_op" [Expr.var 0]]) = none ∧
    UnpackCompositeConvolution
      (Expr.call "nn.relu" [Expr.call "unknown_op" [Expr.var 0]]) = none := by
  refine ⟨unpackDense_shape, unpackConv_shape, ?_, ?_⟩ <;> rfl

/-- C3 witness: the full relu(bias_add(dense(x, w), b)) chain extracts with
the dense call as anchor. -/
theorem claim_C3_extraction_requires_anchor_witness :
    ∃ args,
      (CompositeDenseNode.mk denseAnchorDemo (some biasCallDemo)
        (some reluCallDemo)).dense = Expr.call "nn.dense" args :=
  (claim_C3_extraction_requires_anchor.1 reluCallDemo
    (CompositeDenseNode.mk denseAnchorDemo (some biasCallDemo)
      (some reluCallDemo)) rfl).1

/-- C1: for every composite dense or conv2d match the serializer emits a
kernel node (one output) whose input list is exactly the primary input
(visit of cn->args[0]) followed by the anchor's weight operand (visit of
the anchor call's second argument), followed - exactly when a bias call was
matched - by the bias operand (visit of the bias call's second argument),
and nothing else. -/
theorem claim_C1_serializer_input_order :
    (∀ (visit : Expr → Entry) (cn : CompositeCall) (node : SerializedNode),
      CreateCompositeDenseJSONNode visit cn = some node →
      node.name = "nn.dense" ∧ node.opType = "kernel" ∧ node.numOutputs = 1 ∧
      ∃ r a0 w, UnpackCompositeDense cn.body = some r ∧
        cn.args[0]? = some a0 ∧ argOf r.dense 1 = some w ∧
        ((r.bias = none ∧ node.inputs = [visit a0, visit w]) ∨
         (∃ b bb, r.bias = some b ∧ argOf b 1 = some bb ∧
            node.inputs = [visit a0, visit w, visit bb]))) ∧
    (∀ (visit : Expr → Entry) (cn : CompositeCall) (node : SerializedNode),
      CreateCompositeConvJSONNode visit cn = some node →
      node.name = "nn.conv2d" ∧ node.opType = "kernel" ∧ node.numOutputs = 1 ∧
      ∃ r a0 w, UnpackCompositeConvolution cn.body = some r ∧
        cn.args[0]? = some a0 ∧ argOf r.conv 1 = some w ∧
        ((r.bias = none ∧ node.inputs = [visit a0, visit w]) ∨
         (∃ b bb, r.bias = some b ∧ argOf b 1 = some bb ∧
            node.inputs = [visit a0, visit w, visit bb]))) := by
  constructor
  · intro visit cn node h
    unfold CreateCompositeDenseJSONNode at h
    cases hu : UnpackCompositeDense cn.body with
    | none => rw [hu] at h; cases h
    | some r =>
      rw [hu] at h
      simp only at h
      cases ha0 : cn.args[0]? with
      | none => rw [ha0] at h; simp at h
      | some a0 =>
        rw [ha0] at h
        cases hw : argOf r.dense 1 with
        | none => rw [hw] at h; simp at h
        | some w =>
          rw [hw] at h
          cases hbias : r.bias with
          | none =>
            rw [hbias] at h
            simp only at h
            injection h with h
            subst h
            exact ⟨rfl, rfl, rfl, r, a0, w, rfl, rfl, hw, Or.inl ⟨hbias, rfl⟩⟩
          | some b =>
            rw [hbias] at h
            simp only at h
            cases hbb : argOf b 1 with
            | none => rw [hbb] at h; simp at h
            | some bb =>
              rw [hbb] at h
              simp only at h
              injection h with h
              subst h
              exact ⟨rfl, rfl, rfl, r, a0, w, rfl, rfl, hw,
                Or.inr ⟨b, bb, hbias, hbb, rfl⟩⟩
  · intro visit cn node h
    unfold CreateCompositeConvJSONNode at h
    cases hu : UnpackCompositeConvolution cn.body with
    | none => rw [hu] at h; cases h
    | some r =>
      rw [hu] at h
      simp only at h
      cases ha0 : cn.args[0]? with
      | none => rw [ha0] at h; simp at h
      | some a0 =>
        rw [ha0] at h
        cases hw : argOf r.conv 1 with
        | none => rw [hw] at h; simp at h
        | some w =>
          rw [hw] at h
          cases hbias : r.bias with
          | none =>
            rw [hbias] at h
            simp only at h
            injection h with h
            subst h
            exact ⟨rfl, rfl, rfl, r, a0, w, rfl, rfl, hw, Or.inl ⟨hbias, rfl⟩⟩
          | some b =>
            rw [hbias] at h
            simp only at h
            cases hbb : argOf b 1 with
            | none => rw [hbb] at h; simp at h
            | some bb =>
              rw [hbb] at h
              simp only at h
              injection h with h
              subst h
              exact ⟨rfl, rfl, rfl, r, a0, w, rfl, rfl, hw,
                Or.inr ⟨b, bb, hbias, hbb, rfl⟩⟩

/-- C1 witness: serializing the concrete relu(bias_add(dense(x, w), b))
composite called on argument x = var 7 yields the input list
[visit x, visit w, visit b] in that order. -/
theorem claim_C1_serializer_input_order_witness :
    (SerializedNode.mk "nn.dense" "kernel" [⟨7, 0⟩, ⟨1, 0⟩, ⟨2, 0⟩] 1
        (some ["relu"])).name = "nn.dense" ∧
    (SerializedNode.mk "nn.dense" "kernel" [⟨7, 0⟩, ⟨1, 0⟩, ⟨2, 0⟩] 1
        (some ["relu"])).opType = "kernel" ∧
    (SerializedNode.mk "nn.dense" "kernel" [⟨7, 0⟩, ⟨1, 0⟩, ⟨2, 0⟩] 1
        (some ["relu"])).numOutputs = 1 ∧
    ∃ r a0 w,
      UnpackCompositeDense (CompositeCall.mk reluCallDemo [Expr.var 7]).body = some r ∧
      (CompositeCall.mk reluCallDemo [Expr.var 7]).args[0]? = some a0 ∧
      argOf r.dense 1 = some w ∧
      ((r.bias = none ∧
          (SerializedNode.mk "nn.dense" "kernel" [⟨7, 0⟩, ⟨1, 0⟩, ⟨2, 0⟩] 1
            (some ["relu"])).inputs = [visitDemo a0, visitDemo w]) ∨
       (∃ b bb, r.bias = some b ∧ argOf b 1 = some bb ∧
          (SerializedNode.mk "nn.dense" "kernel" [⟨7, 0⟩, ⟨1, 0⟩, ⟨2, 0⟩] 1
            (some ["relu"])).inputs = [visitDemo a0, visitDemo w, visitDemo bb])) :=
  claim_C1_serializer_input_order.1 visitDemo
    (CompositeCall.mk reluCallDemo [Expr.var 7])
    (SerializedNode.mk "nn.dense" "kernel" [⟨7, 0⟩, ⟨1, 0⟩, ⟨2, 0⟩] 1
      (some ["relu"])) rfl

/-! ### BuildEngine scan lemmas -/

theorem buildEngineGo_found_none (nodes : List JNode) (ids : List Nat)
    (de : Entry → Tensor) (n : JNode) (rest : List JNode)
    (layer : Option BuiltLayer) :
    buildEngineGo nodes ids de (n :: rest) true layer = none := rfl

theorem buildEngineGo_kernel_not_last (nodes : List JNode) (ids : List Nat)
    (de : Entry → Tensor) :
    ∀ (l : List JNode) (found : Bool) (layer : Option BuiltLayer) (i : Nat) (ni : JNode),
      l[i]? = some ni → ni.opType = "kernel" → i + 1 < l.length →
      buildEngineGo nodes ids de l found layer = none := by
  intro l
  induction l with
  | nil =>
    intro found layer i ni hi hk hlen
    simp at hlen
  | cons n rest ih =>
    intro found layer i ni hi hk hlen
    cases found with
    | true => exact buildEngineGo_found_none nodes ids de n rest layer
    | false =>
      have hstep : buildEngineGo nodes ids de (n :: rest) false layer =
          if n.opType == "kernel" then
            match createLayerDispatch nodes de n with
            | none => none
            | some built =>
              match AllocateInputOutputTensors nodes ids with
              | none => none
              | some _ => buildEngineGo nodes ids de rest true (some built)
          else
            match AllocateInputOutputTensors nodes ids with
            | none => none
            | some _ => buildEngineGo nodes ids de rest false layer := rfl
      rw [hstep]
      cases i with
      | zero =>
        simp only [List.getElem?_cons_zero, Option.some.injEq] at hi
        subst hi
        have hkk : (n.opType == "kernel") = true := by simp [hk]
        rw [if_pos hkk]
        cases hcl : createLayerDispatch nodes de n with
        | none => rfl
        | some built =>
          cases hal : AllocateInputOutputTensors nodes ids with
          | none => rfl
          | some u =>
            cases rest with
            | nil => simp at hlen
            | cons r2 rs =>
              exact buildEngineGo_found_none nodes ids de r2 rs (some built)
      | succ i2 =>
        simp only [List.getElem?_cons_succ] at hi
        simp only [List.length_cons] at hlen
        have hlen2 : i2 + 1 < rest.length := by omega
        by_cases hker : (n.opType == "kernel") = true
        · rw [if_pos hker]
          cases hcl : createLayerDispatch nodes de n with
          | none => rfl
          | some built =>
            cases hal : AllocateInputOutputTensors nodes ids with
            | none => rfl
            | some u =>
              cases rest with
              | nil => simp at hlen2
              | cons r2 rs =>
                exact buildEngineGo_found_none nodes ids de r2 rs (some built)
        · rw [if_neg hker]
          cases hal : AllocateInputOutputTensors nodes ids with
          | none => rfl
          | some u => exact ih false layer i2 ni hi hk hlen2

/-- C9: the runtime builder scan aborts fatally as soon as any node of any
op-kind follows the first kernel-tagged node - the fatal check fires on the
next iteration whatever that node is - so a build can succeed only when the
kernel node is the last node in the serialized node list; the concrete
dense subgraph with its kernel node last does build. -/
theorem claim_C9_kernel_must_be_last :
    (∀ (nodes : List JNode) (ids : List Nat) (de : Entry → Tensor) (i : Nat)
      (ni : JNode), nodes[i]? = some ni → ni.opType = "kernel" →
      i + 1 < nodes.length → BuildEngine nodes ids de = none) ∧
    (BuildEngine demoNodes demoInputIds demoDataEntry).isSome = true := by
  constructor
  · intro nodes ids de i ni hi hk hlen
    exact buildEngineGo_kernel_not_last nodes ids de nodes false none i ni hi hk hlen
  · rfl

/-- C9 witness: a kernel node followed by an input node fails the build. -/
theorem claim_C9_kernel_must_be_last_witness :
    BuildEngine [denseKernelNodeDemo, inputNodeDemo] demoInputIds demoDataEntry = none :=
  claim_C9_kernel_must_be_last.1 [denseKernelNodeDemo, inputNodeDemo] demoInputIds
    demoDataEntry 0 denseKernelNodeDemo rfl rfl (by decide)

/-- C2 counterexample: a subgraph whose single node is tagged "input" (zero
kernel nodes) completes BuildEngine's full scan without any fatal error,
returning successfully with no layer built - refuting both "finding zero
kernel nodes after a full scan is fatal" and "the build succeeds only when
exactly one kernel node is present". -/
theorem claim_C2_zero_kernel_scan_succeeds :
    inputNodeDemo.opType = "input" ∧
    BuildEngine [inputNodeDemo] [0] demoDataEntry = some (false, none) :=
  ⟨rfl, rfl⟩

/-- C2 amended: the scan fails fatally when a second kernel-tagged node is
present (any two kernel positions abort the build); a full scan that finds
zero kernel nodes is NOT fatal - it completes successfully with no layer
built - so the build succeeds only when at most one kernel node is present
(and, by C9, nothing follows it). -/
theorem claim_C2_kernel_scan :
    (∀ (nodes : List JNode) (ids : List Nat) (de : Entry → Tensor) (i j : Nat)
      (ni nj : JNode), nodes[i]? = some ni → nodes[j]? = some nj →
      ni.opType = "kernel" → nj.opType = "kernel" → i < j →
      BuildEngine nodes ids de = none) ∧
    BuildEngine [inputNodeDemo] [0] demoDataEntry = some (false, none) := by
  constructor
  · intro nodes ids de i j ni nj hi hj hki hkj hij
    have hjlen : j < nodes.length := by
      rcases List.getElem?_eq_some.mp hj with ⟨hlt, _⟩
      exact hlt
    exact buildEngineGo_kernel_not_last nodes ids de nodes false none i ni hi hki
      (by omega)
  · rfl

/-- C2 witness: two kernel nodes abort the build. -/
theorem claim_C2_kernel_scan_witness :
    BuildEngine [denseKernelNodeDemo, denseKernelNodeDemo] demoInputIds
      demoDataEntry = none :=
  claim_C2_kernel_scan.1 [denseKernelNodeDemo, denseKernelNodeDemo] demoInputIds
    demoDataEntry 0 1 denseKernelNodeDemo denseKernelNodeDemo rfl rfl rfl rfl
    (by decide)

/-! ### AllocateInputOutputTensors lemmas -/

theorem allocGo_nonInput (nodes : List JNode) :
    ∀ (l : List Nat) (found : Bool) (acc : Option (Nat × Nat × Nat)),
      (∀ m ∈ l, ∃ nm, nodes[m]? = some nm ∧ nm.opType ≠ "input") →
      allocGo nodes l found acc = some acc := by
  intro l
  induction l with
  | nil => intro found acc _; rfl
  | cons m rest ih =>
    intro found acc h
    obtain ⟨nm, hm, hni⟩ := h m (List.mem_cons_self m rest)
    have hstep : allocGo nodes (m :: rest) found acc =
        match nodes[m]? with
        | none => none
        | some node =>
          if node.opType == "input" then
            if found then none
            else
              match inTensorDims node.shape with
              | none => none
              | some dims => allocGo nodes rest true (some dims)
          else allocGo nodes rest found acc := rfl
    rw [hstep, hm]
    simp only
    rw [if_neg (by simp [hni])]
    exact ih found acc (fun m2 hm2 => h m2 (List.mem_cons_of_mem m hm2))

theorem allocGo_append_nonInput (nodes : List JNode) :
    ∀ (pre rest : List Nat) (found : Bool) (acc : Option (Nat × Nat × Nat)),
      (∀ m ∈ pre, ∃ nm, nodes[m]? = some nm ∧ nm.opType ≠ "input") →
      allocGo nodes (pre ++ rest) found acc = allocGo nodes rest found acc := by
  intro pre
  induction pre with
  | nil => intro rest found acc _; rfl
  | cons m tl ih =>
    intro rest found acc h
    obtain ⟨nm, hm, hni⟩ := h m (List.mem_cons_self m tl)
    have hstep : allocGo nodes ((m :: tl) ++ rest) found acc =
        match nodes[m]? with
        | none => none
        | some node =>
          if node.opType == "input" then
            if found then none
            else
              match inTensorDims node.shape with
              | none => none
              | some dims => allocGo nodes (tl ++ rest) true (some dims)
          else allocGo nodes (tl ++ rest) found acc := rfl
    rw [hstep, hm]
    simp only
    rw [if_neg (by simp [hni])]
    exact ih rest found acc (fun m2 hm2 => h m2 (List.mem_cons_of_mem m hm2))

theorem allocGo_two_inputs (nodes : List JNode) :
    ∀ (l : List Nat) (found : Bool) (acc : Option (Nat × Nat × Nat)),
      2 ≤ (if found then 1 else 0) +
        ((l.filterMap (fun m => nodes[m]?)).countP (fun nm => nm.opType == "input")) →
      allocGo nodes l found acc = none := by
  intro l
  induction l with
  | nil =>
    intro found acc h
    cases found <;> simp at h
  | cons m rest ih =>
    intro found acc h
    have hstep : allocGo nodes (m :: rest) found acc =
        match nodes[m]? with
        | none => none
        | some node =>
          if node.opType == "input" then
            if found then none
            else
              match inTensorDims node.shape with
              | none => none
              | some dims => allocGo nodes rest true (some dims)
          else allocGo nodes rest found acc := rfl
    rw [hstep]
    cases hm : nodes[m]? with
    | none => rfl
    | some nm =>
      simp only [List.filterMap_cons, hm] at h
      simp only
      by_cases hin : (nm.opType == "input") = true
      · rw [if_pos hin]
        simp only [List.countP_cons, hin, if_true] at h
        cases found with
        | true => rfl
        | false =>
          simp only [Bool.false_eq_true, if_false]
          cases hdims : inTensorDims nm.shape with
          | none => rfl
          | some dims =>
            apply ih true (some dims)
            rw [if_pos rfl]
            simp only [Bool.false_eq_true, if_false] at h
            omega
      · rw [if_neg hin]
        simp only [List.countP_cons, hin, if_false, Nat.add_zero] at h
        exact ih found acc h

/-- C10: every subgraph accepted by AllocateInputOutputTensors resolves at
most one node of op-kind "input": two input-kind nodes among the scanned
ids are fatal; with exactly one input node (all other scanned ids resolving
to non-input nodes) the engine input buffer is created from that node's
declared shape through the rank dispatch: rank 2 gives (shape[1], 1, 1),
rank 4 gives (shape[3], shape[2], shape[1]), and any other rank is fatal. -/
theorem claim_C10_single_input_allocation :
    (∀ (nodes : List JNode) (ids : List Nat),
      2 ≤ ((ids.filterMap (fun m => nodes[m]?)).countP
            (fun nm => nm.opType == "input")) →
      AllocateInputOutputTensors nodes ids = none) ∧
    (∀ (nodes : List JNode) (pre post : List Nat) (nid : Nat) (node : JNode),
      (∀ m ∈ pre, ∃ nm, nodes[m]? = some nm ∧ nm.opType ≠ "input") →
      (∀ m ∈ post, ∃ nm, nodes[m]? = some nm ∧ nm.opType ≠ "input") →
      nodes[nid]? = some node → node.opType = "input" →
      AllocateInputOutputTensors nodes (pre ++ nid :: post) =
        (inTensorDims node.shape).map some) ∧
    (∀ b w : Int, inTensorDims [b, w] = some (w.toNat, 1, 1)) ∧
    (∀ b c h w : Int, inTensorDims [b, c, h, w] = some (w.toNat, h.toNat, c.toNat)) ∧
    (∀ shape : List Int, shape.length ≠ 2 → shape.length ≠ 4 →
      inTensorDims shape = none) := by
  refine ⟨?_, ?_, fun b w => rfl, fun b c h w => rfl, inTensorDims_eq_none⟩
  · intro nodes ids h
    apply allocGo_two_inputs nodes ids false none
    simpa using h
  · intro nodes pre post nid node hpre hpost hnid hin
    unfold AllocateInputOutputTensors
    rw [allocGo_append_nonInput nodes pre (nid :: post) false none hpre]
    have hstep : allocGo nodes (nid :: post) false none =
        match nodes[nid]? with
        | none => none
        | some node =>
          if node.opType == "input" then
            if false then none
            else
              match inTensorDims node.shape with
              | none => none
              | some dims => allocGo nodes post true (some dims)
          else allocGo nodes post false none := rfl
    rw [hstep, hnid]
    simp only
    rw [if_pos (by simp [hin]), if_neg (by simp)]
    cases hdims : inTensorDims node.shape with
    | none => rfl
    | some dims =>
      simp only [Option.map_some]
      exact allocGo_nonInput nodes post true (some dims) hpost

/-- C10 witness: two input nodes are fatal; the single rank-2 input node of
the dense demo subgraph allocates a (4, 1, 1) engine buffer. -/
theorem claim_C10_single_input_allocation_witness :
    AllocateInputOutputTensors [inputNodeDemo, inputNodeDemo] [0, 1] = none ∧
    AllocateInputOutputTensors demoNodes [0] = some (some (4, 1, 1)) := by
  constructor
  · exact claim_C10_single_input_allocation.1 [inputNodeDemo, inputNodeDemo] [0, 1]
      (by decide)
  · have h := claim_C10_single_input_allocation.2.1 demoNodes [] [] 0 inputNodeDemo
      (fun m hm => absurd hm (List.not_mem_nil m))
      (fun m hm => absurd hm (List.not_mem_nil m)) rfl rfl
    simpa using h

/-- C8: both the fully-connected and the 2D-convolution builder fail
fatally (their leading ICHECK) when the kernel node's input count is
outside [2, 3]; with 2 or 3 inputs the check passes, witnessed by concrete
successful builds with 2 and 3 inputs. -/
theorem claim_C8_input_count_range :
    (∀ (nodes : List JNode) (de : Entry → Tensor) (node : JNode),
      ¬(2 ≤ node.inputs.length ∧ node.inputs.length ≤ 3) →
      CreateInnerProductLayer nodes de node = none ∧
      CreateConv2dLayer nodes de node = none) ∧
    (CreateInnerProductLayer demoNodes demoDataEntry denseKernel2NodeDemo).isSome = true ∧
    (CreateInnerProductLayer demoNodes demoDataEntry denseKernelNodeDemo).isSome = true ∧
    (CreateConv2dLayer convDemoNodes convDemoDataEntry convKernelNodeDemo).isSome = true := by
  refine ⟨?_, rfl, rfl, rfl⟩
  intro nodes de node h
  constructor
  · simp only [CreateInnerProductLayer]
    rw [if_neg h]
  · simp only [CreateConv2dLayer]
    rw [if_neg h]

/-- C8 witness: a 4-input dense kernel node fails both builders. -/
theorem claim_C8_input_count_range_witness :
    CreateInnerProductLayer demoNodes demoDataEntry
      ⟨"kernel", "nn.dense", [⟨0, 0⟩, ⟨1, 0⟩, ⟨2, 0⟩, ⟨2, 0⟩], [1, 3], [], 1⟩ = none ∧
    CreateConv2dLayer demoNodes demoDataEntry
      ⟨"kernel", "nn.dense", [⟨0, 0⟩, ⟨1, 0⟩, ⟨2, 0⟩, ⟨2, 0⟩], [1, 3], [], 1⟩ = none :=
  claim_C8_input_count_range.1 demoNodes demoDataEntry
    ⟨"kernel", "nn.dense", [⟨0, 0⟩, ⟨1, 0⟩, ⟨2, 0⟩, ⟨2, 0⟩], [1, 3], [], 1⟩
    (by decide)

/-! ### ParamDict and builder-step lemmas -/

theorem ParamDict.get_set_self (pd : ParamDict) (k : Nat) (v : Int) :
    (pd.set k v).get k = some v := by
  unfold ParamDict.get ParamDict.set
  simp [List.filter_append, List.getLast?_concat]

theorem ParamDict.get_set_ne (pd : ParamDict) (k k2 : Nat) (v : Int) (h : k2 ≠ k) :
    (pd.set k v).get k2 = pd.get k2 := by
  unfold ParamDict.get ParamDict.set
  have hkk : (k == k2) = false := by simp [Ne.symm h]
  simp [List.filter_append, hkk]

theorem applyActivation_get (node : JNode) (pd pdA : ParamDict) (k : Nat)
    (hk : k ≠ 9) (h : applyActivation node pd = some pdA) :
    pdA.get k = pd.get k := by
  unfold applyActivation at h
  cases hattr : node.getAttr "activation_type" with
  | none =>
    rw [hattr] at h
    injection h with h
    subst h
    rfl
  | some l =>
    rw [hattr] at h
    cases l with
    | nil => cases h
    | cons a tl =>
      simp only at h
      injection h with h
      subst h
      by_cases ha : (a == "relu") = true
      · rw [if_pos ha]
        exact ParamDict.get_set_ne pd 9 k 1 hk
      · rw [if_neg ha]

theorem ipLoopStep_primary (nodes : List JNode) (de : Entry → Tensor)
    (pd : ParamDict) (ws : List (List Int)) (e0 : Entry) (n0 : JNode)
    (h0 : nodes[e0.id_]? = some n0) :
    ipLoopStep nodes de (some (pd, ws)) (0, e0) = some (pd, ws) := by
  unfold ipLoopStep
  rw [h0]
  simp only
  by_cases hc : (n0.opType == "const") = true
  · rw [if_pos hc, if_neg (by omega), if_neg (by omega)]
  · rw [if_neg hc]

theorem ipLoopStep_weight (nodes : List JNode) (de : Entry → Tensor)
    (pd : ParamDict) (ws : List (List Int)) (e1 : Entry) (wNode : JNode)
    (d0 : Int) (ds : List Int)
    (h1 : nodes[e1.id_]? = some wNode) (hwc : wNode.opType = "const")
    (hshape : (de e1).shape = d0 :: ds) :
    ipLoopStep nodes de (some (pd, ws)) (1, e1) =
      some ((pd.set 0 d0).set 2 (tensorSize (de e1)),
        ws.set 0 (tensorFlat (de e1))) := by
  unfold ipLoopStep
  rw [h1]
  simp only
  rw [if_pos (by simp [hwc]), if_pos trivial]
  simp only [hshape, List.head?_cons]

theorem ipLoopStep_bias (nodes : List JNode) (de : Entry → Tensor)
    (pd : ParamDict) (ws : List (List Int)) (e2 : Entry) (bNode : JNode)
    (h2 : nodes[e2.id_]? = some bNode) (hbc : bNode.opType = "const") :
    ipLoopStep nodes de (some (pd, ws)) (2, e2) =
      some (pd, ws.set 1 (tensorFlat (de e2))) := by
  unfold ipLoopStep
  rw [h2]
  simp only
  rw [if_pos (by simp [hbc]), if_neg (by omega), if_pos trivial]

theorem innerProduct_build_two (nodes : List JNode) (de : Entry → Tensor)
    (node : JNode) (e0 e1 : Entry) (n0 wNode : JNode) (d0 : Int) (ds : List Int)
    (pdA : ParamDict)
    (hin : node.inputs = [e0, e1])
    (h0 : nodes[e0.id_]? = some n0)
    (h1 : nodes[e1.id_]? = some wNode) (hwc : wNode.opType = "const")
    (hshape : (de e1).shape = d0 :: ds)
    (hact : applyActivation node ((ParamDict.mk []).set 1 0) = some pdA) :
    CreateInnerProductLayer nodes de node =
      some ⟨(pdA.set 0 d0).set 2 (tensorSize (de e1)), [tensorFlat (de e1)]⟩ := by
  simp only [CreateInnerProductLayer, hin, List.length_cons, List.length_nil]
  norm_num
  rw [hact]
  simp only
  rw [show List.range 2 = [0, 1] from rfl]
  rw [show List.zip [0, 1] [e0, e1] = [(0, e0), (1, e1)] from rfl]
  rw [List.foldl_cons, ipLoopStep_primary nodes de pdA [[]] e0 n0 h0,
    List.foldl_cons, ipLoopStep_weight nodes de pdA [[]] e1 wNode d0 ds h1 hwc hshape,
    List.foldl_nil]
  rfl

theorem innerProduct_build_three (nodes : List JNode) (de : Entry → Tensor)
    (node : JNode) (e0 e1 e2 : Entry) (n0 wNode bNode : JNode) (d0 : Int)
    (ds : List Int) (pdA : ParamDict)
    (hin : node.inputs = [e0, e1, e2])
    (h0 : nodes[e0.id_]? = some n0)
    (h1 : nodes[e1.id_]? = some wNode) (hwc : wNode.opType = "const")
    (h2 : nodes[e2.id_]? = some bNode) (hbc : bNode.opType = "const")
    (hshape : (de e1).shape = d0 :: ds)
    (hact : applyActivation node ((ParamDict.mk []).set 1 1) = some pdA) :
    CreateInnerProductLayer nodes de node =
      some ⟨(pdA.set 0 d0).set 2 (tensorSize (de e1)),
        [tensorFlat (de e1), tensorFlat (de e2)]⟩ := by
  simp only [CreateInnerProductLayer, hin, List.length_cons, List.length_nil]
  norm_num
  rw [hact]
  simp only
  rw [show List.range 3 = [0, 1, 2] from rfl]
  rw [show List.zip [0, 1, 2] [e0, e1, e2] = [(0, e0), (1, e1), (2, e2)] from rfl]
  rw [List.foldl_cons, ipLoopStep_primary nodes de pdA [[], []] e0 n0 h0,
    List.foldl_cons,
    ipLoopStep_weight nodes de pdA [[], []] e1 wNode d0 ds h1 hwc hshape,
    List.foldl_cons,
    ipLoopStep_bias nodes de ((pdA.set 0 d0).set 2 (tensorSize (de e1)))
      ([[], []].set 0 (tensorFlat (de e1))) e2 bNode h2 hbc,
    List.foldl_nil]
  rfl

/-- C6: the fully-connected builder, on a node with 2 or 3 inputs whose
weight input (index 1) resolves to a "const" node (and whose bias input,
when present, also does): the built parameter dictionary carries, beyond the
bias flag and optional activation already set (pdA), key 0 = the weight
tensor's leading shape dimension, key 2 = the product of all weight shape
dimensions (tensorSize), and key 1 = the bias flag, 1 exactly when there
are 3 inputs; the weight elements, then (when present) the bias elements,
are copied one by one in row-major order into the flat weight storage
(tensorFlat). -/
theorem claim_C6_inner_product_builder :
    (∀ (nodes : List JNode) (de : Entry → Tensor) (node : JNode) (e0 e1 : Entry)
      (n0 wNode : JNode) (d0 : Int) (ds : List Int) (pdA : ParamDict),
      node.inputs = [e0, e1] →
      nodes[e0.id_]? = some n0 →
      nodes[e1.id_]? = some wNode → wNode.opType = "const" →
      (de e1).shape = d0 :: ds →
      applyActivation node ((ParamDict.mk []).set 1 0) = some pdA →
      CreateInnerProductLayer nodes de node =
        some ⟨(pdA.set 0 d0).set 2 (tensorSize (de e1)), [tensorFlat (de e1)]⟩ ∧
      ((pdA.set 0 d0).set 2 (tensorSize (de e1))).get 0 = some d0 ∧
      ((pdA.set 0 d0).set 2 (tensorSize (de e1))).get 1 = some 0 ∧
      ((pdA.set 0 d0).set 2 (tensorSize (de e1))).get 2 = some (tensorSize (de e1))) ∧
    (∀ (nodes : List JNode) (de : Entry → Tensor) (node : JNode) (e0 e1 e2 : Entry)
      (n0 wNode bNode : JNode) (d0 : Int) (ds : List Int) (pdA : ParamDict),
      node.inputs = [e0, e1, e2] →
      nodes[e0.id_]? = some n0 →
      nodes[e1.id_]? = some wNode → wNode.opType = "const" →
      nodes[e2.id_]? = some bNode → bNode.opType = "const" →
      (de e1).shape = d0 :: ds →
      applyActivation node ((ParamDict.mk []).set 1 1) = some pdA →
      CreateInnerProductLayer nodes de node =
        some ⟨(pdA.set 0 d0).set 2 (tensorSize (de e1)),
          [tensorFlat (de e1), tensorFlat (de e2)]⟩ ∧
      ((pdA.set 0 d0).set 2 (tensorSize (de e1))).get 0 = some d0 ∧
      ((pdA.set 0 d0).set 2 (tensorSize (de e1))).get 1 = some 1 ∧
      ((pdA.set 0 d0).set 2 (tensorSize (de e1))).get 2 = some (tensorSize (de e1))) ∧
    (∀ t : Tensor, tensorSize t = t.shape.foldl (fun a d => a * d) 1 ∧
      tensorFlat t = (List.range (tensorSize t).toNat).map t.data) := by
  refine ⟨?_, ?_, fun t => ⟨rfl, rfl⟩⟩
  · intro nodes de node e0 e1 n0 wNode d0 ds pdA hin h0 h1 hwc hshape hact
    refine ⟨innerProduct_build_two nodes de node e0 e1 n0 wNode d0 ds pdA
      hin h0 h1 hwc hshape hact, ?_, ?_, ?_⟩
    · rw [ParamDict.get_set_ne _ 2 0 _ (by omega), ParamDict.get_set_self]
    · rw [ParamDict.get_set_ne _ 2 1 _ (by omega),
        ParamDict.get_set_ne _ 0 1 _ (by omega),
        applyActivation_get node ((ParamDict.mk []).set 1 0) pdA 1 (by omega) hact,
        ParamDict.get_set_self]
    · rw [ParamDict.get_set_self]
  · intro nodes de node e0 e1 e2 n0 wNode bNode d0 ds pdA hin h0 h1 hwc h2 hbc
      hshape hact
    refine ⟨innerProduct_build_three nodes de node e0 e1 e2 n0 wNode bNode d0 ds
      pdA hin h0 h1 hwc h2 hbc hshape hact, ?_, ?_, ?_⟩
    · rw [ParamDict.get_set_ne _ 2 0 _ (by omega), ParamDict.get_set_self]
    · rw [ParamDict.get_set_ne _ 2 1 _ (by omega),
        ParamDict.get_set_ne _ 0 1 _ (by omega),
        applyActivation_get node ((ParamDict.mk []).set 1 1) pdA 1 (by omega) hact,
        ParamDict.get_set_self]
    · rw [ParamDict.get_set_self]

/-- C6 witness: the concrete dense kernel node (3 inputs, const weight
[3,4], const bias [3], fused relu) builds with output features 3, bias flag
1, weight size 12, and the weight then bias payloads copied in order. -/
theorem claim_C6_inner_product_builder_witness :
    CreateInnerProductLayer demoNodes demoDataEntry denseKernelNodeDemo =
      some ⟨(((((ParamDict.mk []).set 1 1).set 9 1).set 0 3).set 2
          (tensorSize (demoDataEntry ⟨1, 0⟩))),
        [tensorFlat (demoDataEntry ⟨1, 0⟩), tensorFlat (demoDataEntry ⟨2, 0⟩)]⟩ ∧
    ((((((ParamDict.mk []).set 1 1).set 9 1).set 0 3).set 2
        (tensorSize (demoDataEntry ⟨1, 0⟩)))).get 0 = some 3 ∧
    ((((((ParamDict.mk []).set 1 1).set 9 1).set 0 3).set 2
        (tensorSize (demoDataEntry ⟨1, 0⟩)))).get 1 = some 1 ∧
    ((((((ParamDict.mk []).set 1 1).set 9 1).set 0 3).set 2
        (tensorSize (demoDataEntry ⟨1, 0⟩)))).get 2 =
      some (tensorSize (demoDataEntry ⟨1, 0⟩)) :=
  claim_C6_inner_product_builder.2.1 demoNodes demoDataEntry denseKernelNodeDemo
    ⟨0, 0⟩ ⟨1, 0⟩ ⟨2, 0⟩ inputNodeDemo weightConstNodeDemo biasConstNodeDemo 3 [4]
    (((ParamDict.mk []).set 1 1).set 9 1) rfl rfl rfl rfl rfl rfl rfl rfl

theorem applyActivation_congr (n1 n2 : JNode) (pd : ParamDict)
    (h : n1.getAttr "activation_type" = n2.getAttr "activation_type") :
    applyActivation n1 pd = applyActivation n2 pd := by
  unfold applyActivation
  rw [h]

theorem conv_build_two (nodes : List JNode) (de : Entry → Tensor) (node : JNode)
    (e0 e1 : Entry) (wNode : JNode)
    (ch st pad dil ks : String) (chs kss pads sts dils : List String)
    (chv ksv dilv stv padv : Int) (pdA : ParamDict)
    (hin : node.inputs = [e0, e1])
    (hch : node.getAttr "channels" = some (ch :: chs))
    (hks : node.getAttr "kernel_size" = some (ks :: kss))
    (hpad : node.getAttr "padding" = some (pad :: pads))
    (hst : node.getAttr "strides" = some (st :: sts))
    (hdil : node.getAttr "dilation" = some (dil :: dils))
    (hchv : stoi ch = some chv) (hksv : stoi ks = some ksv)
    (hdilv : stoi dil = some dilv) (hstv : stoi st = some stv)
    (hpadv : stoi pad = some padv)
    (h1 : nodes[e1.id_]? = some wNode) (hwc : wNode.opType = "const")
    (hact : applyActivation node
      ((((((((ParamDict.mk []).set 0 chv).set 1 ksv).set 2 dilv).set 3 stv).set
        4 padv)).set 5 0) = some pdA) :
    CreateConv2dLayer nodes de node =
      some ⟨pdA.set 6 (tensorSize (de e1)), [tensorFlat (de e1)]⟩ := by
  have hwcb : (wNode.opType == "const") = true := by simp [hwc]
  simp only [CreateConv2dLayer, hin, List.length_cons, List.length_nil]
  norm_num
  rw [hch, hks, hpad, hst, hdil]
  simp only [List.head?_cons, Option.some_bind]
  rw [hchv, hksv, hdilv, hstv, hpadv]
  simp only
  rw [hact]
  simp only
  rw [h1]
  simp only
  rw [if_pos hwc, if_pos hwc]

theorem conv_build_three (nodes : List JNode) (de : Entry → Tensor) (node : JNode)
    (e0 e1 e2 : Entry) (wNode bNode : JNode)
    (ch st pad dil ks : String) (chs kss pads sts dils : List String)
    (chv ksv dilv stv padv : Int) (pdA : ParamDict)
    (hin : node.inputs = [e0, e1, e2])
    (hch : node.getAttr "channels" = some (ch :: chs))
    (hks : node.getAttr "kernel_size" = some (ks :: kss))
    (hpad : node.getAttr "padding" = some (pad :: pads))
    (hst : node.getAttr "strides" = some (st :: sts))
    (hdil : node.getAttr "dilation" = some (dil :: dils))
    (hchv : stoi ch = some chv) (hksv : stoi ks = some ksv)
    (hdilv : stoi dil = some dilv) (hstv : stoi st = some stv)
    (hpadv : stoi pad = some padv)
    (h1 : nodes[e1.id_]? = some wNode) (hwc : wNode.opType = "const")
    (h2 : nodes[e2.id_]? = some bNode)
    (hact : applyActivation node
      ((((((((ParamDict.mk []).set 0 chv).set 1 ksv).set 2 dilv).set 3 stv).set
        4 padv)).set 5 1) = some pdA) :
    CreateConv2dLayer nodes de node =
      some ⟨pdA.set 6 (tensorSize (de e1)),
        [tensorFlat (de e1), tensorFlat (de e2)]⟩ := by
  have hwcb : (wNode.opType == "const") = true := by simp [hwc]
  simp only [CreateConv2dLayer, hin, List.length_cons, List.length_nil]
  norm_num
  rw [hch, hks, hpad, hst, hdil]
  simp only [List.head?_cons, Option.some_bind]
  rw [hchv, hksv, hdilv, hstv, hpadv]
  simp only
  rw [hact]
  simp only
  rw [h1]
  simp only
  rw [h2]
  simp only
  rw [if_pos hwc, if_pos hwc, if_pos hwc]
  rfl

/-- C7: the 2D-convolution builder honors only a single scalar per
hyper-parameter: parameter keys 0..4 are std::stoi of entry [0] of the
channels, kernel_size, dilation, strides and padding attribute lists
respectively, and replacing the per-axis tails of those lists (keeping the
heads, the inputs and the activation attribute) cannot change the built
layer at all - further per-axis entries are silently ignored. -/
theorem claim_C7_conv_single_scalar :
    (∀ (nodes : List JNode) (de : Entry → Tensor) (n1 n2 : JNode)
      (ch ks pad st dil : String)
      (chs1 chs2 kss1 kss2 pads1 pads2 sts1 sts2 dils1 dils2 : List String),
      n1.inputs = n2.inputs →
      n1.getAttr "channels" = some (ch :: chs1) →
      n2.getAttr "channels" = some (ch :: chs2) →
      n1.getAttr "kernel_size" = some (ks :: kss1) →
      n2.getAttr "kernel_size" = some (ks :: kss2) →
      n1.getAttr "padding" = some (pad :: pads1) →
      n2.getAttr "padding" = some (pad :: pads2) →
      n1.getAttr "strides" = some (st :: sts1) →
      n2.getAttr "strides" = some (st :: sts2) →
      n1.getAttr "dilation" = some (dil :: dils1) →
      n2.getAttr "dilation" = some (dil :: dils2) →
      n1.getAttr "activation_type" = n2.getAttr "activation_type" →
      CreateConv2dLayer nodes de n1 = CreateConv2dLayer nodes de n2) ∧
    (∀ (nodes : List JNode) (de : Entry → Tensor) (node : JNode)
      (e0 e1 : Entry) (wNode : JNode)
      (ch st pad dil ks : String) (chs kss pads sts dils : List String)
      (chv ksv dilv stv padv : Int) (pdA : ParamDict),
      node.inputs = [e0, e1] →
      node.getAttr "channels" = some (ch :: chs) →
      node.getAttr "kernel_size" = some (ks :: kss) →
      node.getAttr "padding" = some (pad :: pads) →
      node.getAttr "strides" = some (st :: sts) →
      node.getAttr "dilation" = some (dil :: dils) →
      stoi ch = some chv → stoi ks = some ksv → stoi dil = some dilv →
      stoi st = some stv → stoi pad = some padv →
      nodes[e1.id_]? = some wNode → wNode.opType = "const" →
      applyActivation node
        ((((((((ParamDict.mk []).set 0 chv).set 1 ksv).set 2 dilv).set 3 stv).set
          4 padv)).set 5 0) = some pdA →
      CreateConv2dLayer nodes de node =
        some ⟨pdA.set 6 (tensorSize (de e1)), [tensorFlat (de e1)]⟩ ∧
      (pdA.set 6 (tensorSize (de e1))).get 0 = some chv ∧
      (pdA.set 6 (tensorSize (de e1))).get 1 = some ksv ∧
      (pdA.set 6 (tensorSize (de e1))).get 2 = some dilv ∧
      (pdA.set 6 (tensorSize (de e1))).get 3 = some stv ∧
      (pdA.set 6 (tensorSize (de e1))).get 4 = some padv) := by
  constructor
  · intro nodes de n1 n2 ch ks pad st dil chs1 chs2 kss1 kss2 pads1 pads2
      sts1 sts2 dils1 dils2 hin hch1 hch2 hks1 hks2 hpad1 hpad2 hst1 hst2
      hdil1 hdil2 hacteq
    have hAA : applyActivation n1 = applyActivation n2 :=
      funext (fun pd => applyActivation_congr n1 n2 pd hacteq)
    simp only [CreateConv2dLayer, hin, hch1, hch2, hks1, hks2, hpad1, hpad2,
      hst1, hst2, hdil1, hdil2, hAA, List.head?_cons, Option.some_bind]
  · intro nodes de node e0 e1 wNode ch st pad dil ks chs kss pads sts dils
      chv ksv dilv stv padv pdA hin hch hks hpad hst hdil hchv hksv hdilv
      hstv hpadv h1 hwc hact
    have hbase : ∀ k : Nat, k ≠ 6 → k ≠ 9 →
        (pdA.set 6 (tensorSize (de e1))).get k =
        (((((((ParamDict.mk []).set 0 chv).set 1 ksv).set 2 dilv).set 3 stv).set
          4 padv).set 5 0).get k := by
      intro k h6 h9
      rw [ParamDict.get_set_ne _ 6 k _ h6,
        applyActivation_get node _ pdA k h9 hact]
    refine ⟨conv_build_two nodes de node e0 e1 wNode ch st pad dil ks chs kss
      pads sts dils chv ksv dilv stv padv pdA hin hch hks hpad hst hdil hchv
      hksv hdilv hstv hpadv h1 hwc hact, ?_, ?_, ?_, ?_, ?_⟩
    · rw [hbase 0 (by omega) (by omega), ParamDict.get_set_ne _ 5 0 _ (by omega),
        ParamDict.get_set_ne _ 4 0 _ (by omega),
        ParamDict.get_set_ne _ 3 0 _ (by omega),
        ParamDict.get_set_ne _ 2 0 _ (by omega),
        ParamDict.get_set_ne _ 1 0 _ (by omega), ParamDict.get_set_self]
    · rw [hbase 1 (by omega) (by omega), ParamDict.get_set_ne _ 5 1 _ (by omega),
        ParamDict.get_set_ne _ 4 1 _ (by omega),
        ParamDict.get_set_ne _ 3 1 _ (by omega),
        ParamDict.get_set_ne _ 2 1 _ (by omega), ParamDict.get_set_self]
    · rw [hbase 2 (by omega) (by omega), ParamDict.get_set_ne _ 5 2 _ (by omega),
        ParamDict.get_set_ne _ 4 2 _ (by omega),
        ParamDict.get_set_ne _ 3 2 _ (by omega), ParamDict.get_set_self]
    · rw [hbase 3 (by omega) (by omega), ParamDict.get_set_ne _ 5 3 _ (by omega),
        ParamDict.get_set_ne _ 4 3 _ (by omega), ParamDict.get_set_self]
    · rw [hbase 4 (by omega) (by omega), ParamDict.get_set_ne _ 5 4 _ (by omega),
        ParamDict.get_set_self]

/-- C7 witness: the demo conv node and its variant with different per-axis
tail entries build the same layer, and the built parameters are the parsed
heads 2, 3, 1, 1, 1. -/
theorem claim_C7_conv_single_scalar_witness :
    CreateConv2dLayer convDemoNodes convDemoDataEntry convKernelNodeDemo =
      CreateConv2dLayer convDemoNodes convDemoDataEntry convKernelNodeDemoTail ∧
    ((((((((ParamDict.mk []).set 0 2).set 1 3).set 2 1).set 3 1).set 4 1).set
        5 0).set 6 (tensorSize (convDemoDataEntry ⟨1, 0⟩))).get 0 = some 2 := by
  constructor
  · exact claim_C7_conv_single_scalar.1 convDemoNodes convDemoDataEntry
      convKernelNodeDemo convKernelNodeDemoTail "2" "3" "1" "1" "1"
      [] [] ["3"] ["7"] ["1"] ["9"] ["1"] ["8"] ["1"] ["6"]
      rfl rfl rfl rfl rfl rfl rfl rfl rfl rfl rfl rfl
  · exact (claim_C7_conv_single_scalar.2 convDemoNodes convDemoDataEntry
      convKernelNodeDemo ⟨0, 0⟩ ⟨1, 0⟩ convWeightConstNodeDemo
      "2" "1" "1" "1" "3" [] ["3"] ["1"] ["1"] ["1"] 2 3 1 1 1
      (((((((ParamDict.mk []).set 0 2).set 1 3).set 2 1).set 3 1).set 4 1).set 5 0)
      rfl rfl rfl rfl rfl rfl rfl rfl rfl rfl rfl rfl rfl rfl).2.1

end NCNN
